import Mathlib

/-!
# AVC Controller for Legato: a shallow embedding of `avcController.c`

The controller keeps an AirVantage (AVC) session alive.  Its whole state is three
file-scope variables (`AvcRetryTimerRef`, `AvcSessionHandle`, `mrcNetRegStateHandle`);
everything else is a call into the Legato framework (`le_timer`, `le_avc`, `le_mrc`, `le_sig`).

Embedding conventions.

* The three globals are the first three fields of `World`; a `NULL` reference is `none`.
* Every framework call is recorded, in program order, in `World.trace`.
* What the framework answers (the attach state written by `le_mrc_GetNetRegState`, the result
  of `le_avc_StartSession`, the reference returned by `le_timer_Create`, ...) is not decided by
  the controller.  Each handler invocation calls each framework function at most once, so one
  `Oracle` record per invocation carries every answer, and all theorems quantify over it.
* `LE_INFO` / `LE_ERROR` / `LE_CRIT` / `LE_WARN_IF` only write to the log; the log is not part
  of the trace.  The one place where a log statement has an argument with an effect
  (`GetUpdateType()` inside `LE_INFO`) is modelled, see `Oracle.infoEnabled`.
* Handlers run to completion one after the other (the Legato event loop), so a handler is a
  function `World → World`.
-/

set_option linter.unusedVariables false

namespace AvcController

/-! ## Framework types (declared in `legato.h` / `interfaces.h`) -/

/-- Result code of a framework call.  The controller only ever compares a result with `LE_OK`;
`other` stands for every code that is neither `LE_OK` nor `LE_FAULT`. -/
inductive le_result_t
  | LE_OK
  | LE_FAULT
  | other (code : Int)
  deriving DecidableEq, Repr

/-- Network registration state, in the order of the source table `NetRegStateStr`.
`unrecognised` stands for a value of the C enum type that is none of the six enumerators. -/
inductive le_mrc_NetRegState_t
  | LE_MRC_REG_NONE
  | LE_MRC_REG_HOME
  | LE_MRC_REG_SEARCHING
  | LE_MRC_REG_DENIED
  | LE_MRC_REG_ROAMING
  | LE_MRC_REG_UNKNOWN
  | unrecognised (code : Int)
  deriving DecidableEq, Repr

/-- Kind of update reported by `le_avc_GetUpdateType`; `unrecognised` is any other value. -/
inductive le_avc_UpdateType_t
  | LE_AVC_FIRMWARE_UPDATE
  | LE_AVC_APPLICATION_UPDATE
  | LE_AVC_FRAMEWORK_UPDATE
  | LE_AVC_UNKNOWN_UPDATE
  | unrecognised (code : Int)
  deriving DecidableEq, Repr

/-- Session / update status delivered to the status handler: the enumerators named in the
`switch` of `avcSessionCtrl_StatusHandler`, and `unrecognised` for any value that matches no
`case` label. -/
inductive le_avc_Status_t
  | LE_AVC_NO_UPDATE
  | LE_AVC_DOWNLOAD_PENDING
  | LE_AVC_DOWNLOAD_IN_PROGRESS
  | LE_AVC_DOWNLOAD_COMPLETE
  | LE_AVC_DOWNLOAD_FAILED
  | LE_AVC_INSTALL_PENDING
  | LE_AVC_INSTALL_IN_PROGRESS
  | LE_AVC_INSTALL_COMPLETE
  | LE_AVC_INSTALL_FAILED
  | LE_AVC_UNINSTALL_PENDING
  | LE_AVC_UNINSTALL_IN_PROGRESS
  | LE_AVC_UNINSTALL_COMPLETE
  | LE_AVC_UNINSTALL_FAILED
  | LE_AVC_CONNECTION_PENDING
  | LE_AVC_AUTH_STARTED
  | LE_AVC_AUTH_FAILED
  | LE_AVC_REBOOT_PENDING
  | LE_AVC_SESSION_BS_STARTED
  | LE_AVC_CERTIFICATION_OK
  | LE_AVC_CERTIFICATION_KO
  | LE_AVC_SESSION_STARTED
  | LE_AVC_SESSION_STOPPED
  | LE_AVC_SESSION_FAILED
  | unrecognised (code : Int)
  deriving DecidableEq, Repr

/-- Non-`NULL` timer reference. -/
abbrev le_timer_Ref_t := Nat

/-- Non-`NULL` reference to a registered session-status handler. -/
abbrev le_avc_StatusEventHandlerRef_t := Nat

/-- Non-`NULL` reference to a registered registration-state handler. -/
abbrev le_mrc_NetRegStateEventHandlerRef_t := Nat

/-- Time value `{ sec, usec }`. -/
structure le_clk_Time_t where
  sec : Int
  usec : Int
  deriving DecidableEq, Repr

/-- The functions of the controller that are handed to the framework as callbacks. -/
inductive Callback
  | AvcRetryTimerHandler
  | avcSessionCtrl_StatusHandler
  | netRegStateHandle
  | sigHandlerSigTerm
  deriving DecidableEq, Repr

/-- Signal number of `SIGTERM`. -/
def SIGTERM : Int := 15

/-- One call into the framework (or the C library, for `sleep`), with its arguments; for the
three calls that hand out a reference the returned reference is recorded last. -/
inductive Effect
  | le_timer_Create (name : String) (ref : le_timer_Ref_t)
  | le_timer_SetHandler (ref : le_timer_Ref_t) (handler : Callback)
  | le_timer_SetRepeat (ref : le_timer_Ref_t) (repeatCount : Nat)
  | le_timer_SetInterval (ref : le_timer_Ref_t) (interval : le_clk_Time_t)
  | le_timer_Start (ref : le_timer_Ref_t)
  | le_timer_Stop (ref : le_timer_Ref_t)
  | le_timer_Delete (ref : le_timer_Ref_t)
  | sleep (seconds : Nat)
  | le_mrc_GetNetRegState
  | le_avc_StartSession
  | le_avc_StopSession
  | le_avc_GetUpdateType
  | le_avc_AcceptDownload
  | le_avc_AcceptInstall
  | le_avc_AcceptUninstall
  | le_avc_AddStatusEventHandler (handler : Callback) (ref : le_avc_StatusEventHandlerRef_t)
  | le_avc_RemoveStatusEventHandler (ref : le_avc_StatusEventHandlerRef_t)
  | le_mrc_AddNetRegStateEventHandler (handler : Callback)
      (ref : le_mrc_NetRegStateEventHandlerRef_t)
  | le_mrc_RemoveNetRegStateEventHandler (ref : le_mrc_NetRegStateEventHandlerRef_t)
  | le_sig_Block (sigNum : Int)
  | le_sig_SetEventHandler (sigNum : Int) (handler : Callback)
  deriving DecidableEq, Repr

/-- The answers of the framework during one handler invocation. -/
structure Oracle where
  /-- Whether `LE_INFO` evaluates its arguments (the macro is guarded by the log-level filter). -/
  infoEnabled : Bool
  /-- Value of the local `netRegState` after `le_mrc_GetNetRegState(&netRegState)`. -/
  netRegState : le_mrc_NetRegState_t
  /-- Result of `le_avc_StartSession()`. -/
  startSession : le_result_t
  /-- Result of `le_avc_StopSession()`. -/
  stopSession : le_result_t
  /-- Result of `le_avc_GetUpdateType(&type)`. -/
  getUpdateType : le_result_t
  /-- Value of the local `type` after `le_avc_GetUpdateType(&type)`. -/
  updateType : le_avc_UpdateType_t
  /-- Result of `le_avc_AcceptDownload()`. -/
  acceptDownload : le_result_t
  /-- Result of `le_avc_AcceptInstall()`. -/
  acceptInstall : le_result_t
  /-- Result of `le_avc_AcceptUninstall()`. -/
  acceptUninstall : le_result_t
  /-- Reference returned by `le_timer_Create` (never `NULL`; it may repeat an earlier one). -/
  timerRef : le_timer_Ref_t
  /-- Reference returned by `le_avc_AddStatusEventHandler`. -/
  statusHandlerRef : le_avc_StatusEventHandlerRef_t
  /-- Reference returned by `le_mrc_AddNetRegStateEventHandler`. -/
  netRegHandlerRef : le_mrc_NetRegStateEventHandlerRef_t
  deriving DecidableEq, Repr

/-! ## Controller state -/

/-- The three globals of `avcController.c` and the trace of framework calls made so far. -/
structure World where
  AvcRetryTimerRef : Option le_timer_Ref_t
  AvcSessionHandle : Option le_avc_StatusEventHandlerRef_t
  mrcNetRegStateHandle : Option le_mrc_NetRegStateEventHandlerRef_t
  trace : List Effect
  deriving DecidableEq, Repr

/-- State at program load: the three globals are initialised to `NULL`. -/
def World.init : World :=
  { AvcRetryTimerRef := none, AvcSessionHandle := none, mrcNetRegStateHandle := none, trace := [] }

/-- Record one framework call at the end of the trace. -/
def call (e : Effect) (w : World) : World :=
  { w with trace := w.trace ++ [e] }

/-- Retry interval in seconds (`#define AVCRETRYTIMERINTERVAL 60`). -/
def AVCRETRYTIMERINTERVAL : Int := 60

/-! ## The functions of `avcController.c` -/

/-- Source function `StartAvcTimer` (lines 84-95). -/
def StartAvcTimer (o : Oracle) (w : World) : World :=
  let interval : le_clk_Time_t := { sec := AVCRETRYTIMERINTERVAL, usec := 0 }
  let w := call (.le_timer_Create "AvcRetryTimer" o.timerRef) w
  let w := { w with AvcRetryTimerRef := some o.timerRef }
  let w := call (.le_timer_SetHandler o.timerRef .AvcRetryTimerHandler) w
  let w := call (.le_timer_SetRepeat o.timerRef 1) w
  let w := call (.le_timer_SetInterval o.timerRef interval) w
  call (.le_timer_Start o.timerRef) w

/-- Source function `StopAvcTimer` (lines 97-106). -/
def StopAvcTimer (w : World) : World :=
  match w.AvcRetryTimerRef with
  | some ref =>
    let w := call (.le_timer_Stop ref) w
    let w := call (.le_timer_Delete ref) w
    { w with AvcRetryTimerRef := none }
  | none => w

/-- Source function `GetUpdateType` (lines 117-150): the world after the query and the returned string. -/
def GetUpdateType (o : Oracle) (w : World) : World × String :=
  let w := call .le_avc_GetUpdateType w
  let res := o.getUpdateType
  if res ≠ .LE_OK then
    (w, "UNKNOWN")
  else
    match o.updateType with
    | .LE_AVC_FIRMWARE_UPDATE => (w, "FIRMWARE")
    | .LE_AVC_APPLICATION_UPDATE => (w, "APPLICATION")
    | .LE_AVC_FRAMEWORK_UPDATE => (w, "FRAMEWORK")
    | .LE_AVC_UNKNOWN_UPDATE => (w, "UNKNOWN")
    | .unrecognised _ => (w, "UNKNOWN")

/-- The argument `GetUpdateType()` of an `LE_INFO` statement: evaluated only when the macro
passes the log-level filter. -/
def logUpdateType (o : Oracle) (w : World) : World :=
  if o.infoEnabled then (GetUpdateType o w).1 else w

/-- Source function `avcSessionOpen` (lines 305-343): the world afterwards and the returned result. -/
def avcSessionOpen (o : Oracle) (w : World) : World × le_result_t :=
  let result : le_result_t := .LE_FAULT
  let w := StopAvcTimer w
  let w := call (.sleep 2) w
  let w := call .le_mrc_GetNetRegState w
  let netRegState := o.netRegState
  let (w, result) :=
    match netRegState with
    | .LE_MRC_REG_HOME | .LE_MRC_REG_ROAMING =>
      let w := call .le_avc_StartSession w
      let result := o.startSession
      -- both branches of the test on the result only log
      if .LE_OK ≠ result then (w, result) else (w, result)
    | _ => (w, result)
  let w := StartAvcTimer o w
  (w, result)

/-- Source function `AvcRetryTimerHandler` (lines 75-82). -/
def AvcRetryTimerHandler (o : Oracle) (pTimerRef : le_timer_Ref_t) (w : World) : World :=
  (avcSessionOpen o w).1

/-- Source function `avcSessionCtrl_StatusHandler` (lines 157-295). -/
def avcSessionCtrl_StatusHandler (o : Oracle) (updateStatus : le_avc_Status_t)
    (totalNumBytes downloadProgress : Int) (w : World) : World :=
  let (statusPtr, w) : Option String × World :=
    match updateStatus with
    | .LE_AVC_NO_UPDATE => (some "NO_UPDATE", w)
    | .LE_AVC_DOWNLOAD_PENDING => (some "DOWNLOAD_PENDING", w)
    | .LE_AVC_DOWNLOAD_IN_PROGRESS => (some "DOWNLOAD_IN_PROGRESS", w)
    | .LE_AVC_DOWNLOAD_COMPLETE => (some "DOWNLOAD_COMPLETE", w)
    | .LE_AVC_DOWNLOAD_FAILED => (some "DOWNLOAD_FAILED", w)
    | .LE_AVC_INSTALL_PENDING => (some "INSTALL_PENDING", w)
    | .LE_AVC_INSTALL_IN_PROGRESS => (some "INSTALL_IN_PROGRESS", w)
    | .LE_AVC_INSTALL_COMPLETE => (some "INSTALL_COMPLETE", w)
    | .LE_AVC_INSTALL_FAILED => (some "INSTALL_FAILED", w)
    | .LE_AVC_UNINSTALL_PENDING => (some "UNINSTALL_PENDING", w)
    | .LE_AVC_UNINSTALL_IN_PROGRESS => (some "UNINSTALL_IN_PROGRESS", w)
    | .LE_AVC_UNINSTALL_COMPLETE => (some "UNINSTALL_COMPLETE", w)
    | .LE_AVC_UNINSTALL_FAILED => (some "UNINSTALL_FAILED", w)
    | .LE_AVC_CONNECTION_PENDING => (some "LE_AVC_CONNECTION_PENDING", w)
    | .LE_AVC_AUTH_STARTED => (some "AUTHENTICATION_STARTED", w)
    | .LE_AVC_AUTH_FAILED => (some "AUTHENTICATION_FAILED", w)
    | .LE_AVC_REBOOT_PENDING => (some "REBOOT_PENDING", w)
    | .LE_AVC_SESSION_BS_STARTED => (some "SESSION_BS_STARTED", w)
    | .LE_AVC_CERTIFICATION_OK => (some "CERTIFICATION_OK", w)
    | .LE_AVC_CERTIFICATION_KO => (some "CERTIFICATION_KO", w)
    | .LE_AVC_SESSION_STARTED => (some "SESSION_STARTED", StopAvcTimer w)
    | .LE_AVC_SESSION_STOPPED => (some "SESSION_STOPPED", (avcSessionOpen o w).1)
    | .LE_AVC_SESSION_FAILED => (some "LE_AVC_SESSION_FAILED", w)
    | .unrecognised _ => (none, w)
  match statusPtr with
  | none => w
  | some _ =>
    if updateStatus = .LE_AVC_DOWNLOAD_PENDING then
      let w := logUpdateType o w
      let w := call .le_avc_AcceptDownload w
      let res := o.acceptDownload
      -- a failure is only logged
      if res ≠ .LE_OK then w else w
    else if updateStatus = .LE_AVC_INSTALL_PENDING then
      let w := logUpdateType o w
      let w := call .le_avc_AcceptInstall w
      let res := o.acceptInstall
      -- a failure is only logged
      if res ≠ .LE_OK then w else w
    else if updateStatus = .LE_AVC_UNINSTALL_PENDING then
      let w := logUpdateType o w
      let w := call .le_avc_AcceptUninstall w
      let res := o.acceptUninstall
      -- a failure is only logged
      if res ≠ .LE_OK then w else w
    else if updateStatus = .LE_AVC_INSTALL_COMPLETE then
      w
    else
      w

/-- Source function `avcSessionClose` (lines 349-363). -/
def avcSessionClose (o : Oracle) (w : World) : World × le_result_t :=
  let w := call .le_avc_StopSession w
  let w :=
    match w.AvcRetryTimerRef with
    | some ref =>
      let w := call (.le_timer_Stop ref) w
      let w := call (.le_timer_Delete ref) w
      { w with AvcRetryTimerRef := none }
    | none => w
  (w, .LE_OK)

/-- Source function `netRegStateHandle` (lines 367-385). -/
def netRegStateHandle (o : Oracle) (state : le_mrc_NetRegState_t) (w : World) : World :=
  match state with
  | .LE_MRC_REG_HOME | .LE_MRC_REG_ROAMING => (avcSessionOpen o w).1
  | .LE_MRC_REG_NONE | .LE_MRC_REG_SEARCHING | .LE_MRC_REG_DENIED | .LE_MRC_REG_UNKNOWN =>
    call .le_avc_StopSession w
  | .unrecognised _ => w

/-- Source function `cleanUp` (lines 389-410). -/
def cleanUp (w : World) : World :=
  let w :=
    match w.AvcRetryTimerRef with
    | some ref =>
      let w := call (.le_timer_Stop ref) w
      let w := call (.le_timer_Delete ref) w
      { w with AvcRetryTimerRef := none }
    | none => w
  let w :=
    match w.AvcSessionHandle with
    | some h =>
      let w := call (.le_avc_RemoveStatusEventHandler h) w
      { w with AvcSessionHandle := none }
    | none => w
  match w.mrcNetRegStateHandle with
  | some h =>
    let w := call (.le_mrc_RemoveNetRegStateEventHandler h) w
    { w with mrcNetRegStateHandle := none }
  | none => w

/-- Source function `sigHandlerSigTerm` (lines 412-419). -/
def sigHandlerSigTerm (o : Oracle) (pSigNum : Int) (w : World) : World :=
  let w := call .le_avc_StopSession w
  cleanUp w

/-- Source function `COMPONENT_INIT` (lines 422-441). -/
def COMPONENT_INIT (o : Oracle) (w : World) : World :=
  let w := call (.le_sig_Block SIGTERM) w
  let w := call (.le_sig_SetEventHandler SIGTERM .sigHandlerSigTerm) w
  let w := call (.le_avc_AddStatusEventHandler .avcSessionCtrl_StatusHandler o.statusHandlerRef) w
  let w := { w with AvcSessionHandle := some o.statusHandlerRef }
  let w := call (.le_mrc_AddNetRegStateEventHandler .netRegStateHandle o.netRegHandlerRef) w
  let w := { w with mrcNetRegStateHandle := some o.netRegHandlerRef }
  (avcSessionOpen o w).1

/-! ## Events and runs -/

/-- What the event loop can deliver to the controller. -/
inductive Event
  | startup
  | timerFire (pTimerRef : le_timer_Ref_t)
  | sessionStatus (updateStatus : le_avc_Status_t) (totalNumBytes downloadProgress : Int)
  | netRegState (state : le_mrc_NetRegState_t)
  | sigTerm
  deriving DecidableEq, Repr

/-- Effect of one framework call on the pool of timers that exist (created, not deleted). -/
def timerStep (live : List le_timer_Ref_t) : Effect → List le_timer_Ref_t
  | .le_timer_Create _ ref => ref :: live
  | .le_timer_Delete ref => live.erase ref
  | _ => live

/-- The timers that exist after the calls of a trace, starting from an empty pool. -/
def liveTimers (tr : List Effect) : List le_timer_Ref_t :=
  tr.foldl timerStep []

/-- Replays a trace from the pool `live` and checks that every `le_timer_Create` happens
while no timer exists. -/
def createsOnlyWhenNoneLive : List le_timer_Ref_t → List Effect → Bool
  | _, [] => true
  | live, e :: tr =>
    (match e with
      | .le_timer_Create _ _ => live.isEmpty
      | _ => true) && createsOnlyWhenNoneLive (timerStep live e) tr

/-- One event handled to completion.  A timer can only fire while it exists; the expiry of a
reference that does not exist is not an event of the system and leaves the world as it is. -/
def step (w : World) (eo : Event × Oracle) : World :=
  match eo.1 with
  | .startup => COMPONENT_INIT eo.2 w
  | .timerFire pTimerRef =>
    if pTimerRef ∈ liveTimers w.trace then AvcRetryTimerHandler eo.2 pTimerRef w else w
  | .sessionStatus updateStatus totalNumBytes downloadProgress =>
    avcSessionCtrl_StatusHandler eo.2 updateStatus totalNumBytes downloadProgress w
  | .netRegState state => netRegStateHandle eo.2 state w
  | .sigTerm => sigHandlerSigTerm eo.2 SIGTERM w

/-- A finite sequence of events, each with the framework's answers, handled in order. -/
def run (w : World) (evs : List (Event × Oracle)) : World :=
  evs.foldl step w

/-! ## Shapes of traces -/

/-- The calls `StopAvcTimer` makes for a given value of `AvcRetryTimerRef`. -/
def disarmCalls : Option le_timer_Ref_t → List Effect
  | some ref => [.le_timer_Stop ref, .le_timer_Delete ref]
  | none => []

/-- The calls `StartAvcTimer` makes when `le_timer_Create` returns `ref`. -/
def armCalls (ref : le_timer_Ref_t) : List Effect :=
  [.le_timer_Create "AvcRetryTimer" ref,
   .le_timer_SetHandler ref .AvcRetryTimerHandler,
   .le_timer_SetRepeat ref 1,
   .le_timer_SetInterval ref { sec := 60, usec := 0 },
   .le_timer_Start ref]

/-- The start command, issued for the two registered attach states only. -/
def startCalls : le_mrc_NetRegState_t → List Effect
  | .LE_MRC_REG_HOME => [.le_avc_StartSession]
  | .LE_MRC_REG_ROAMING => [.le_avc_StartSession]
  | _ => []

/-- The call `cleanUp` makes for a given value of `AvcSessionHandle`. -/
def removeStatusCalls : Option le_avc_StatusEventHandlerRef_t → List Effect
  | some h => [.le_avc_RemoveStatusEventHandler h]
  | none => []

/-- The call `cleanUp` makes for a given value of `mrcNetRegStateHandle`. -/
def removeNetRegCalls : Option le_mrc_NetRegStateEventHandlerRef_t → List Effect
  | some h => [.le_mrc_RemoveNetRegStateEventHandler h]
  | none => []

/-- Whether a framework call is one of the three accept commands. -/
def isAccept : Effect → Bool
  | .le_avc_AcceptDownload => true
  | .le_avc_AcceptInstall => true
  | .le_avc_AcceptUninstall => true
  | _ => false

/-- The timer discipline as a state invariant: the timers that exist are exactly the one the
global `AvcRetryTimerRef` refers to (none when it is `NULL`), and no timer was ever created
while another one existed. -/
def TimerInv (w : World) : Prop :=
  liveTimers w.trace = w.AvcRetryTimerRef.toList ∧ createsOnlyWhenNoneLive [] w.trace = true

/-- Sample answers: registered on the home network, every command succeeds except
`le_avc_AcceptInstall`. -/
def oracleHome : Oracle :=
  { infoEnabled := true, netRegState := .LE_MRC_REG_HOME, startSession := .LE_OK,
    stopSession := .LE_OK, getUpdateType := .LE_OK, updateType := .LE_AVC_FIRMWARE_UPDATE,
    acceptDownload := .LE_OK, acceptInstall := .LE_FAULT, acceptUninstall := .LE_OK,
    timerRef := 1, statusHandlerRef := 10, netRegHandlerRef := 20 }

/-- Sample answers: still searching for a network, every command reports a fault. -/
def oracleSearching : Oracle :=
  { infoEnabled := false, netRegState := .LE_MRC_REG_SEARCHING, startSession := .LE_FAULT,
    stopSession := .LE_FAULT, getUpdateType := .LE_FAULT, updateType := .unrecognised 99,
    acceptDownload := .LE_FAULT, acceptInstall := .LE_FAULT, acceptUninstall := .LE_FAULT,
    timerRef := 2, statusHandlerRef := 11, netRegHandlerRef := 21 }

/-- Sample state: a retry timer is armed and both subscriptions are held. -/
def worldArmed : World :=
  { AvcRetryTimerRef := some 7, AvcSessionHandle := some 10, mrcNetRegStateHandle := some 20,
    trace := [.le_timer_Create "AvcRetryTimer" 7] }

/-- Whether an event is a session-status notification other than Session-Stopped. -/
def isStatusOtherThanStopped : Event → Bool
  | .sessionStatus updateStatus _ _ => decide (updateStatus ≠ .LE_AVC_SESSION_STOPPED)
  | _ => false

/-- The expiry events of a retry loop: the timer `ref` fires and is answered by the first
oracle, then the timer created while handling that expiry fires, and so on. -/
def fireEvents : le_timer_Ref_t → List Oracle → List (Event × Oracle)
  | _, [] => []
  | ref, o :: os => (.timerFire ref, o) :: fireEvents o.timerRef os

/-- The timer that is armed at the end of a retry loop started with `ref` armed. -/
def lastTimerRef : le_timer_Ref_t → List Oracle → le_timer_Ref_t
  | ref, [] => ref
  | _, o :: os => lastTimerRef o.timerRef os

/-! ## Basic facts about the timer functions and `avcSessionOpen` -/

theorem StopAvcTimer_trace (w : World) :
    (StopAvcTimer w).trace = w.trace ++ disarmCalls w.AvcRetryTimerRef := by
  unfold StopAvcTimer
  cases h : w.AvcRetryTimerRef <;> simp [disarmCalls, call]

theorem StopAvcTimer_ref (w : World) : (StopAvcTimer w).AvcRetryTimerRef = none := by
  unfold StopAvcTimer
  cases h : w.AvcRetryTimerRef <;> simp [h]

theorem StopAvcTimer_handles (w : World) :
    (StopAvcTimer w).AvcSessionHandle = w.AvcSessionHandle ∧
    (StopAvcTimer w).mrcNetRegStateHandle = w.mrcNetRegStateHandle := by
  unfold StopAvcTimer
  cases h : w.AvcRetryTimerRef <;> simp [call]

theorem StartAvcTimer_trace (o : Oracle) (w : World) :
    (StartAvcTimer o w).trace = w.trace ++ armCalls o.timerRef := by
  simp [StartAvcTimer, armCalls, call, AVCRETRYTIMERINTERVAL]

theorem avcSessionOpen_trace (o : Oracle) (w : World) :
    (avcSessionOpen o w).1.trace =
      w.trace ++ disarmCalls w.AvcRetryTimerRef ++ [.sleep 2, .le_mrc_GetNetRegState] ++
        startCalls o.netRegState ++ armCalls o.timerRef := by
  unfold avcSessionOpen
  cases h : o.netRegState <;>
    simp [StartAvcTimer_trace, StopAvcTimer_trace, startCalls, call]

theorem avcSessionOpen_ref (o : Oracle) (w : World) :
    (avcSessionOpen o w).1.AvcRetryTimerRef = some o.timerRef := by
  unfold avcSessionOpen
  cases h : o.netRegState <;> simp [StartAvcTimer, call]

theorem avcSessionOpen_handles (o : Oracle) (w : World) :
    (avcSessionOpen o w).1.AvcSessionHandle = w.AvcSessionHandle ∧
    (avcSessionOpen o w).1.mrcNetRegStateHandle = w.mrcNetRegStateHandle := by
  unfold avcSessionOpen
  cases h : o.netRegState <;> simp [StartAvcTimer, call, StopAvcTimer_handles]

/-! ## The timer invariant -/

theorem liveTimers_append (a b : List Effect) :
    liveTimers (a ++ b) = b.foldl timerStep (liveTimers a) := by
  simp [liveTimers, List.foldl_append]

theorem createsOnlyWhenNoneLive_append (a b : List Effect) (live : List le_timer_Ref_t) :
    createsOnlyWhenNoneLive live (a ++ b) =
      (createsOnlyWhenNoneLive live a && createsOnlyWhenNoneLive (a.foldl timerStep live) b) := by
  induction a generalizing live with
  | nil => simp [createsOnlyWhenNoneLive]
  | cons e a ih => simp [createsOnlyWhenNoneLive, ih, Bool.and_assoc]

/-- A handler keeps the invariant when the calls it adds keep it. -/
theorem TimerInv_extend {w w' : World} (es : List Effect) (h : TimerInv w)
    (ht : w'.trace = w.trace ++ es)
    (hl : es.foldl timerStep w.AvcRetryTimerRef.toList = w'.AvcRetryTimerRef.toList)
    (hc : createsOnlyWhenNoneLive w.AvcRetryTimerRef.toList es = true) : TimerInv w' := by
  obtain ⟨h1, h2⟩ := h
  refine ⟨?_, ?_⟩
  · rw [ht, liveTimers_append, h1, hl]
  · have h1' : List.foldl timerStep [] w.trace = w.AvcRetryTimerRef.toList := h1
    rw [ht, createsOnlyWhenNoneLive_append, h2, h1', hc]
    rfl

theorem TimerInv_init : TimerInv World.init := by
  simp [TimerInv, World.init, liveTimers, createsOnlyWhenNoneLive]

theorem TimerInv_StopAvcTimer {w : World} (h : TimerInv w) : TimerInv (StopAvcTimer w) := by
  refine TimerInv_extend (disarmCalls w.AvcRetryTimerRef) h (StopAvcTimer_trace w) ?_ ?_
  · rw [StopAvcTimer_ref]
    cases w.AvcRetryTimerRef <;> simp [disarmCalls, timerStep]
  · cases w.AvcRetryTimerRef <;> simp [disarmCalls, createsOnlyWhenNoneLive]

theorem TimerInv_avcSessionOpen (o : Oracle) {w : World} (h : TimerInv w) :
    TimerInv (avcSessionOpen o w).1 := by
  refine TimerInv_extend _ h (by rw [avcSessionOpen_trace, List.append_assoc, List.append_assoc,
    List.append_assoc]) ?_ ?_
  · rw [avcSessionOpen_ref]
    cases w.AvcRetryTimerRef <;> cases o.netRegState <;>
      simp [disarmCalls, startCalls, armCalls, timerStep]
  · cases w.AvcRetryTimerRef <;> cases o.netRegState <;>
      simp [disarmCalls, startCalls, armCalls, timerStep, createsOnlyWhenNoneLive]

theorem TimerInv_call {w : World} (e : Effect) (h : TimerInv w)
    (hs : ∀ live, timerStep live e = live)
    (hc : ∀ live, createsOnlyWhenNoneLive live [e] = true) : TimerInv (call e w) := by
  refine TimerInv_extend [e] h rfl ?_ (hc _)
  simp [call, hs]

theorem TimerInv_logUpdateType (o : Oracle) {w : World} (h : TimerInv w) :
    TimerInv (logUpdateType o w) := by
  unfold logUpdateType
  split
  · have : (GetUpdateType o w).1 = call .le_avc_GetUpdateType w := by
      unfold GetUpdateType
      simp only []
      split
      · rfl
      · split <;> rfl
    rw [this]
    exact TimerInv_call _ h (fun _ => rfl) (fun _ => rfl)
  · exact h

theorem TimerInv_StatusHandler (o : Oracle) (updateStatus : le_avc_Status_t)
    (totalNumBytes downloadProgress : Int) {w : World} (h : TimerInv w) :
    TimerInv (avcSessionCtrl_StatusHandler o updateStatus totalNumBytes downloadProgress w) := by
  cases updateStatus <;>
    simp only [avcSessionCtrl_StatusHandler, reduceCtorEq, if_true, if_false, ite_self]
  all_goals first
    | exact h
    | exact TimerInv_StopAvcTimer h
    | exact TimerInv_avcSessionOpen o h
    | exact TimerInv_call _ (TimerInv_logUpdateType o h) (fun _ => rfl) (fun _ => rfl)

theorem TimerInv_netRegStateHandle (o : Oracle) (state : le_mrc_NetRegState_t) {w : World}
    (h : TimerInv w) : TimerInv (netRegStateHandle o state w) := by
  cases state <;> simp only [netRegStateHandle]
  all_goals first
    | exact h
    | exact TimerInv_avcSessionOpen o h
    | exact TimerInv_call _ h (fun _ => rfl) (fun _ => rfl)

theorem cleanUp_trace (w : World) :
    (cleanUp w).trace = w.trace ++ disarmCalls w.AvcRetryTimerRef ++
      removeStatusCalls w.AvcSessionHandle ++ removeNetRegCalls w.mrcNetRegStateHandle := by
  unfold cleanUp
  cases h1 : w.AvcRetryTimerRef <;> cases h2 : w.AvcSessionHandle <;>
    cases h3 : w.mrcNetRegStateHandle <;>
    simp [call, disarmCalls, removeStatusCalls, removeNetRegCalls, h2, h3]

theorem cleanUp_refs (w : World) :
    (cleanUp w).AvcRetryTimerRef = none ∧ (cleanUp w).AvcSessionHandle = none ∧
      (cleanUp w).mrcNetRegStateHandle = none := by
  unfold cleanUp
  cases h1 : w.AvcRetryTimerRef <;> cases h2 : w.AvcSessionHandle <;>
    cases h3 : w.mrcNetRegStateHandle <;> simp [call, h1, h2, h3]

theorem TimerInv_cleanUp {w : World} (h : TimerInv w) : TimerInv (cleanUp w) := by
  refine TimerInv_extend _ h (by rw [cleanUp_trace, List.append_assoc, List.append_assoc]) ?_ ?_
  · rw [(cleanUp_refs w).1]
    cases w.AvcRetryTimerRef <;> cases w.AvcSessionHandle <;> cases w.mrcNetRegStateHandle <;>
      simp [disarmCalls, removeStatusCalls, removeNetRegCalls, timerStep]
  · cases w.AvcRetryTimerRef <;> cases w.AvcSessionHandle <;> cases w.mrcNetRegStateHandle <;>
      simp [disarmCalls, removeStatusCalls, removeNetRegCalls, timerStep,
        createsOnlyWhenNoneLive]

theorem TimerInv_sigHandlerSigTerm (o : Oracle) (pSigNum : Int) {w : World} (h : TimerInv w) :
    TimerInv (sigHandlerSigTerm o pSigNum w) := by
  unfold sigHandlerSigTerm
  exact TimerInv_cleanUp (TimerInv_call _ h (fun _ => rfl) (fun _ => rfl))

theorem TimerInv_COMPONENT_INIT (o : Oracle) {w : World} (h : TimerInv w) :
    TimerInv (COMPONENT_INIT o w) := by
  unfold COMPONENT_INIT
  apply TimerInv_avcSessionOpen
  have h1 := TimerInv_call (.le_sig_Block SIGTERM) h (fun _ => rfl) (fun _ => rfl)
  have h2 := TimerInv_call (.le_sig_SetEventHandler SIGTERM .sigHandlerSigTerm) h1
    (fun _ => rfl) (fun _ => rfl)
  have h3 := TimerInv_call
    (.le_avc_AddStatusEventHandler .avcSessionCtrl_StatusHandler o.statusHandlerRef) h2
    (fun _ => rfl) (fun _ => rfl)
  have h4 : TimerInv { call (.le_avc_AddStatusEventHandler .avcSessionCtrl_StatusHandler
      o.statusHandlerRef) (call (.le_sig_SetEventHandler SIGTERM .sigHandlerSigTerm)
      (call (.le_sig_Block SIGTERM) w)) with AvcSessionHandle := some o.statusHandlerRef } := h3
  have h5 := TimerInv_call
    (.le_mrc_AddNetRegStateEventHandler .netRegStateHandle o.netRegHandlerRef) h4
    (fun _ => rfl) (fun _ => rfl)
  exact h5

theorem TimerInv_step (eo : Event × Oracle) {w : World} (h : TimerInv w) :
    TimerInv (step w eo) := by
  obtain ⟨e, o⟩ := eo
  cases e with
  | startup => exact TimerInv_COMPONENT_INIT o h
  | timerFire r =>
    simp only [step]
    split
    · exact TimerInv_avcSessionOpen o h
    · exact h
  | sessionStatus st n p => exact TimerInv_StatusHandler o st n p h
  | netRegState st => exact TimerInv_netRegStateHandle o st h
  | sigTerm => exact TimerInv_sigHandlerSigTerm o SIGTERM h

theorem TimerInv_run (evs : List (Event × Oracle)) {w : World} (h : TimerInv w) :
    TimerInv (run w evs) := by
  induction evs generalizing w with
  | nil => exact h
  | cons eo evs ih => exact ih (TimerInv_step eo h)

/-! ## The status handler, case by case -/

theorem logUpdateType_eq (o : Oracle) (w : World) :
    logUpdateType o w = if o.infoEnabled then call .le_avc_GetUpdateType w else w := by
  unfold logUpdateType GetUpdateType
  split
  · simp only []
    split
    · rfl
    · split <;> rfl
  · rfl

theorem StatusHandler_started (o : Oracle) (n p : Int) (w : World) :
    avcSessionCtrl_StatusHandler o .LE_AVC_SESSION_STARTED n p w = StopAvcTimer w := by
  simp [avcSessionCtrl_StatusHandler]

theorem StatusHandler_stopped (o : Oracle) (n p : Int) (w : World) :
    avcSessionCtrl_StatusHandler o .LE_AVC_SESSION_STOPPED n p w = (avcSessionOpen o w).1 := by
  simp [avcSessionCtrl_StatusHandler]

theorem StatusHandler_download_pending (o : Oracle) (n p : Int) (w : World) :
    avcSessionCtrl_StatusHandler o .LE_AVC_DOWNLOAD_PENDING n p w =
      call .le_avc_AcceptDownload (logUpdateType o w) := by
  simp [avcSessionCtrl_StatusHandler]

theorem StatusHandler_install_pending (o : Oracle) (n p : Int) (w : World) :
    avcSessionCtrl_StatusHandler o .LE_AVC_INSTALL_PENDING n p w =
      call .le_avc_AcceptInstall (logUpdateType o w) := by
  simp [avcSessionCtrl_StatusHandler]

theorem StatusHandler_uninstall_pending (o : Oracle) (n p : Int) (w : World) :
    avcSessionCtrl_StatusHandler o .LE_AVC_UNINSTALL_PENDING n p w =
      call .le_avc_AcceptUninstall (logUpdateType o w) := by
  simp [avcSessionCtrl_StatusHandler]

theorem logUpdateType_filter_isAccept (o : Oracle) (w : World) :
    (logUpdateType o w).trace.filter isAccept = w.trace.filter isAccept := by
  rw [logUpdateType_eq]
  cases o.infoEnabled <;> simp [call, isAccept]

/-- A status other than Started and Stopped leaves the three globals alone and adds no call
other than the update-type query and the accept commands. -/
theorem StatusHandler_other (o : Oracle) (st : le_avc_Status_t) (n p : Int) (w : World)
    (h1 : st ≠ .LE_AVC_SESSION_STARTED) (h2 : st ≠ .LE_AVC_SESSION_STOPPED) :
    (avcSessionCtrl_StatusHandler o st n p w).AvcRetryTimerRef = w.AvcRetryTimerRef ∧
    (avcSessionCtrl_StatusHandler o st n p w).AvcSessionHandle = w.AvcSessionHandle ∧
    (avcSessionCtrl_StatusHandler o st n p w).mrcNetRegStateHandle = w.mrcNetRegStateHandle ∧
    ∃ es, (avcSessionCtrl_StatusHandler o st n p w).trace = w.trace ++ es ∧
      ∀ e ∈ es, e = .le_avc_GetUpdateType ∨ isAccept e = true := by
  cases st <;> first
    | exact absurd rfl h1
    | exact absurd rfl h2
    | (simp only [StatusHandler_download_pending, StatusHandler_install_pending,
        StatusHandler_uninstall_pending, logUpdateType_eq]
       cases o.infoEnabled <;> simp [call, isAccept])
    | (refine ⟨?_, ?_, ?_, [], ?_, ?_⟩ <;> simp [avcSessionCtrl_StatusHandler])

theorem StatusHandler_not_pending (o : Oracle) (st : le_avc_Status_t) (n p : Int) (w : World)
    (h1 : st ≠ .LE_AVC_SESSION_STARTED) (h2 : st ≠ .LE_AVC_SESSION_STOPPED)
    (h3 : st ≠ .LE_AVC_DOWNLOAD_PENDING) (h4 : st ≠ .LE_AVC_INSTALL_PENDING)
    (h5 : st ≠ .LE_AVC_UNINSTALL_PENDING) :
    avcSessionCtrl_StatusHandler o st n p w = w := by
  cases st <;> first
    | exact absurd rfl h1
    | exact absurd rfl h2
    | exact absurd rfl h3
    | exact absurd rfl h4
    | exact absurd rfl h5
    | simp [avcSessionCtrl_StatusHandler]

/-- While no timer is armed, a status other than Stopped arms none and queries no attach
state. -/
theorem StatusHandler_keeps_disarmed (o : Oracle) (st : le_avc_Status_t) (n p : Int) (w : World)
    (h : st ≠ .LE_AVC_SESSION_STOPPED) (hr : w.AvcRetryTimerRef = none) :
    (avcSessionCtrl_StatusHandler o st n p w).AvcRetryTimerRef = none ∧
    (avcSessionCtrl_StatusHandler o st n p w).trace.count .le_mrc_GetNetRegState =
      w.trace.count .le_mrc_GetNetRegState := by
  by_cases hs : st = .LE_AVC_SESSION_STARTED
  · subst hs
    rw [StatusHandler_started, StopAvcTimer_ref, StopAvcTimer_trace, hr]
    simp [disarmCalls]
  · obtain ⟨a, _, _, es, ht, hes⟩ := StatusHandler_other o st n p w hs h
    refine ⟨a.trans hr, ?_⟩
    have hz : es.count .le_mrc_GetNetRegState = 0 := by
      apply List.count_eq_zero_of_not_mem
      intro hm
      rcases hes _ hm with h' | h'
      · exact absurd h' (by decide)
      · exact absurd h' (by decide)
    rw [ht, List.count_append, hz, Nat.add_zero]

theorem run_keeps_disarmed (evs : List (Event × Oracle)) (w : World)
    (h : ∀ eo ∈ evs, isStatusOtherThanStopped eo.1 = true) (hr : w.AvcRetryTimerRef = none) :
    (run w evs).AvcRetryTimerRef = none ∧
    (run w evs).trace.count .le_mrc_GetNetRegState = w.trace.count .le_mrc_GetNetRegState := by
  induction evs generalizing w with
  | nil => exact ⟨hr, rfl⟩
  | cons eo evs ih =>
    obtain ⟨e, o⟩ := eo
    have he := h (e, o) (List.mem_cons_self _ _)
    cases e with
    | sessionStatus st n p =>
      have hst : st ≠ .LE_AVC_SESSION_STOPPED := by simpa [isStatusOtherThanStopped] using he
      obtain ⟨a, b⟩ := StatusHandler_keeps_disarmed o st n p w hst hr
      obtain ⟨c, d⟩ := ih (avcSessionCtrl_StatusHandler o st n p w)
        (fun eo hm => h eo (List.mem_cons_of_mem _ hm)) a
      exact ⟨c, d.trans b⟩
    | startup => simp [isStatusOtherThanStopped] at he
    | timerFire r => simp [isStatusOtherThanStopped] at he
    | netRegState st => simp [isStatusOtherThanStopped] at he
    | sigTerm => simp [isStatusOtherThanStopped] at he

/-! ## The claims -/

/-- C1 (attach gating).  For every controller state, every attach state left by the
registration query and every result of the start command, one invocation of `avcSessionOpen`
adds exactly one `le_avc_StartSession` call to the trace when the queried state is Home or
Roaming, and adds none for any other value (None, Searching, Denied, Unknown, unrecognised). -/
theorem avcSessionOpen_attach_gating (o : Oracle) (w : World) :
    ((o.netRegState = .LE_MRC_REG_HOME ∨ o.netRegState = .LE_MRC_REG_ROAMING) →
      (avcSessionOpen o w).1.trace.count .le_avc_StartSession =
        w.trace.count .le_avc_StartSession + 1) ∧
    (¬ (o.netRegState = .LE_MRC_REG_HOME ∨ o.netRegState = .LE_MRC_REG_ROAMING) →
      (avcSessionOpen o w).1.trace.count .le_avc_StartSession =
        w.trace.count .le_avc_StartSession) := by
  rw [avcSessionOpen_trace]
  cases hr : w.AvcRetryTimerRef <;> cases hn : o.netRegState <;>
    simp [disarmCalls, startCalls, armCalls, List.count_cons, List.count_append]

/-- C1, concrete instance: from the initial state, with the registration query answering Home,
the trace of `avcSessionOpen` holds one start command; answering Searching, none. -/
theorem avcSessionOpen_attach_gating_witness :
    (avcSessionOpen oracleHome World.init).1.trace.count .le_avc_StartSession = 0 + 1 ∧
    (avcSessionOpen oracleSearching World.init).1.trace.count .le_avc_StartSession = 0 :=
  ⟨(avcSessionOpen_attach_gating oracleHome World.init).1 (Or.inl rfl),
   (avcSessionOpen_attach_gating oracleSearching World.init).2 (by decide)⟩

/-- C2 (single timer).  Run any finite sequence of events (startup, timer fire, session-status
notification, attach-state notification, termination signal), each with arbitrary framework
answers, from the initial state.  After every step `k` the number of timers created and not
yet deleted is at most one; it is one exactly when `AvcRetryTimerRef` is not `NULL`; and in the
whole trace up to that point every `le_timer_Create` happened while no timer existed, so no
timer was leaked by overwriting the reference. -/
theorem single_retry_timer (evs : List (Event × Oracle)) (k : Nat) :
    (liveTimers (run World.init (evs.take k)).trace).length ≤ 1 ∧
    ((liveTimers (run World.init (evs.take k)).trace).length = 1 ↔
      (run World.init (evs.take k)).AvcRetryTimerRef ≠ none) ∧
    createsOnlyWhenNoneLive [] (run World.init (evs.take k)).trace = true := by
  obtain ⟨h1, h2⟩ := TimerInv_run (evs.take k) TimerInv_init
  rw [h1]
  refine ⟨?_, ?_, h2⟩ <;> cases (run World.init (evs.take k)).AvcRetryTimerRef <;> simp

/-- C3 (auto-accept).  For every controller state and all framework answers (in particular
every result of the accept command and of the update-type query), the accept commands the
status handler adds to the trace are: exactly one `le_avc_AcceptDownload` for Download-Pending,
exactly one `le_avc_AcceptInstall` for Install-Pending, exactly one `le_avc_AcceptUninstall`
for Uninstall-Pending, and nothing else; a fault result therefore causes no second attempt. -/
theorem pending_accepted_exactly_once (o : Oracle) (totalNumBytes downloadProgress : Int)
    (w : World) :
    (avcSessionCtrl_StatusHandler o .LE_AVC_DOWNLOAD_PENDING totalNumBytes downloadProgress
        w).trace.filter isAccept = w.trace.filter isAccept ++ [.le_avc_AcceptDownload] ∧
    (avcSessionCtrl_StatusHandler o .LE_AVC_INSTALL_PENDING totalNumBytes downloadProgress
        w).trace.filter isAccept = w.trace.filter isAccept ++ [.le_avc_AcceptInstall] ∧
    (avcSessionCtrl_StatusHandler o .LE_AVC_UNINSTALL_PENDING totalNumBytes downloadProgress
        w).trace.filter isAccept = w.trace.filter isAccept ++ [.le_avc_AcceptUninstall] := by
  rw [StatusHandler_download_pending, StatusHandler_install_pending,
    StatusHandler_uninstall_pending]
  have h := logUpdateType_filter_isAccept o w
  refine ⟨?_, ?_, ?_⟩ <;> simp [call, List.filter_append, h, isAccept]

/-- C4 (re-arm at the end of every open attempt).  For every controller state, queried attach
state and start result, when `avcSessionOpen` returns: `AvcRetryTimerRef` holds the reference
that `le_timer_Create` returned during this invocation; the calls the invocation added end
with the creation of that timer, `SetHandler` to `AvcRetryTimerHandler`, `SetRepeat` 1,
`SetInterval` 60 s and `Start`, and contain no other timer creation; that timer exists, so its
expiry is an event, and handling that event runs `avcSessionOpen` again. -/
theorem avcSessionOpen_rearms (o o' : Oracle) (w : World) :
    (avcSessionOpen o w).1.AvcRetryTimerRef = some o.timerRef ∧
    (∃ pre : List Effect, (∀ name ref, Effect.le_timer_Create name ref ∉ pre) ∧
      (avcSessionOpen o w).1.trace = w.trace ++ pre ++
        [.le_timer_Create "AvcRetryTimer" o.timerRef,
         .le_timer_SetHandler o.timerRef .AvcRetryTimerHandler,
         .le_timer_SetRepeat o.timerRef 1,
         .le_timer_SetInterval o.timerRef { sec := 60, usec := 0 },
         .le_timer_Start o.timerRef]) ∧
    o.timerRef ∈ liveTimers (avcSessionOpen o w).1.trace ∧
    step (avcSessionOpen o w).1 (.timerFire o.timerRef, o') =
      (avcSessionOpen o' (avcSessionOpen o w).1).1 := by
  have hlive : o.timerRef ∈ liveTimers (avcSessionOpen o w).1.trace := by
    rw [avcSessionOpen_trace, liveTimers_append]
    simp [armCalls, timerStep]
  refine ⟨avcSessionOpen_ref o w, ?_, hlive, ?_⟩
  · refine ⟨disarmCalls w.AvcRetryTimerRef ++ [.sleep 2, .le_mrc_GetNetRegState] ++
      startCalls o.netRegState, ?_, ?_⟩
    · cases w.AvcRetryTimerRef <;> cases o.netRegState <;>
        simp [disarmCalls, startCalls]
    · rw [avcSessionOpen_trace]
      simp [armCalls]
  · simp [step, hlive, AvcRetryTimerHandler]

/-- C5 (disarm on Started).  For every controller state, after the status handler has handled
Session-Started the reference `AvcRetryTimerRef` is `NULL`; if a timer `ref` was armed the
handler's calls are exactly `le_timer_Stop ref`, `le_timer_Delete ref`, otherwise it makes no
call at all (so no start, stop or accept command either way).  Scenario A: startup with
attach state Home issues exactly one start command, and after the following Started
notification no timer is armed and none exists. -/
theorem started_disarms (o o' : Oracle) (totalNumBytes downloadProgress : Int) (w : World) :
    (avcSessionCtrl_StatusHandler o .LE_AVC_SESSION_STARTED totalNumBytes downloadProgress
        w).AvcRetryTimerRef = none ∧
    (∀ ref, w.AvcRetryTimerRef = some ref →
      (avcSessionCtrl_StatusHandler o .LE_AVC_SESSION_STARTED totalNumBytes downloadProgress
        w).trace = w.trace ++ [.le_timer_Stop ref, .le_timer_Delete ref]) ∧
    (w.AvcRetryTimerRef = none →
      (avcSessionCtrl_StatusHandler o .LE_AVC_SESSION_STARTED totalNumBytes downloadProgress
        w).trace = w.trace) ∧
    (o.netRegState = .LE_MRC_REG_HOME →
      (COMPONENT_INIT o World.init).trace.count .le_avc_StartSession = 1 ∧
      (avcSessionCtrl_StatusHandler o' .LE_AVC_SESSION_STARTED totalNumBytes downloadProgress
        (COMPONENT_INIT o World.init)).AvcRetryTimerRef = none ∧
      liveTimers (avcSessionCtrl_StatusHandler o' .LE_AVC_SESSION_STARTED totalNumBytes
        downloadProgress (COMPONENT_INIT o World.init)).trace = []) := by
  simp only [StatusHandler_started, StopAvcTimer_ref, StopAvcTimer_trace, true_and]
  refine ⟨?_, ?_, ?_⟩
  · intro ref h
    simp [h, disarmCalls]
  · intro h
    simp [h, disarmCalls]
  · intro h
    refine ⟨?_, ?_⟩
    · unfold COMPONENT_INIT
      rw [avcSessionOpen_trace, h]
      simp [call, World.init, disarmCalls, startCalls, armCalls, SIGTERM]
    · have hi := (TimerInv_StopAvcTimer (TimerInv_COMPONENT_INIT o TimerInv_init)).1
      rw [StopAvcTimer_ref, StopAvcTimer_trace] at hi
      exact hi

/-- C5, concrete instance (Scenario A): startup answered with Home, then Session-Started. -/
theorem started_disarms_witness :
    (COMPONENT_INIT oracleHome World.init).trace.count .le_avc_StartSession = 1 ∧
    (avcSessionCtrl_StatusHandler oracleSearching .LE_AVC_SESSION_STARTED 0 0
      (COMPONENT_INIT oracleHome World.init)).AvcRetryTimerRef = none ∧
    liveTimers (avcSessionCtrl_StatusHandler oracleSearching .LE_AVC_SESSION_STARTED 0 0
      (COMPONENT_INIT oracleHome World.init)).trace = [] :=
  (started_disarms oracleHome oracleSearching 0 0 World.init).2.2.2 rfl

/-- C6 (no timer-driven retry after success).  Take any reachable state (any event sequence
`pre` run from the initial state), deliver Session-Started, and then any finite sequence of
session-status notifications none of which is Session-Stopped.  After every step `k` of that
sequence: `AvcRetryTimerRef` is `NULL`, no timer exists, hence the expiry of any timer
reference is not an event that does anything, and no `avcSessionOpen` has run since the
Started notification (the attach state has not been queried again). -/
theorem no_retry_after_started (pre evs : List (Event × Oracle)) (o : Oracle)
    (totalNumBytes downloadProgress : Int) (k : Nat)
    (h : ∀ eo ∈ evs, isStatusOtherThanStopped eo.1 = true) :
    (run (avcSessionCtrl_StatusHandler o .LE_AVC_SESSION_STARTED totalNumBytes downloadProgress
      (run World.init pre)) (evs.take k)).AvcRetryTimerRef = none ∧
    liveTimers (run (avcSessionCtrl_StatusHandler o .LE_AVC_SESSION_STARTED totalNumBytes
      downloadProgress (run World.init pre)) (evs.take k)).trace = [] ∧
    (∀ ref o', step (run (avcSessionCtrl_StatusHandler o .LE_AVC_SESSION_STARTED totalNumBytes
      downloadProgress (run World.init pre)) (evs.take k)) (.timerFire ref, o') =
      run (avcSessionCtrl_StatusHandler o .LE_AVC_SESSION_STARTED totalNumBytes
      downloadProgress (run World.init pre)) (evs.take k)) ∧
    (run (avcSessionCtrl_StatusHandler o .LE_AVC_SESSION_STARTED totalNumBytes downloadProgress
      (run World.init pre)) (evs.take k)).trace.count .le_mrc_GetNetRegState =
      (avcSessionCtrl_StatusHandler o .LE_AVC_SESSION_STARTED totalNumBytes downloadProgress
      (run World.init pre)).trace.count .le_mrc_GetNetRegState := by
  have h0 : TimerInv (avcSessionCtrl_StatusHandler o .LE_AVC_SESSION_STARTED totalNumBytes
      downloadProgress (run World.init pre)) :=
    TimerInv_StatusHandler o _ _ _ (TimerInv_run pre TimerInv_init)
  have hr0 : (avcSessionCtrl_StatusHandler o .LE_AVC_SESSION_STARTED totalNumBytes
      downloadProgress (run World.init pre)).AvcRetryTimerRef = none := by
    rw [StatusHandler_started, StopAvcTimer_ref]
  obtain ⟨a, b⟩ := run_keeps_disarmed (evs.take k) _
    (fun eo hm => h eo (List.mem_of_mem_take hm)) hr0
  have hl := (TimerInv_run (evs.take k) h0).1
  rw [a] at hl
  refine ⟨a, hl, ?_, b⟩
  intro ref o'
  simp [step, hl]

/-- C6, concrete instance: startup on the home network, Session-Started, then an
authentication notification and an Install-Pending notification. -/
theorem no_retry_after_started_witness :
    (run (avcSessionCtrl_StatusHandler oracleHome .LE_AVC_SESSION_STARTED 0 0
      (run World.init [(.startup, oracleHome)]))
      ([(Event.sessionStatus .LE_AVC_AUTH_STARTED 0 0, oracleHome),
        (Event.sessionStatus .LE_AVC_INSTALL_PENDING 0 0, oracleSearching)].take 2)
      ).AvcRetryTimerRef = none :=
  (no_retry_after_started [(.startup, oracleHome)]
    [(.sessionStatus .LE_AVC_AUTH_STARTED 0 0, oracleHome),
     (.sessionStatus .LE_AVC_INSTALL_PENDING 0 0, oracleSearching)] oracleHome 0 0 2
    (by decide)).1

/-- C7 (immediate reopen on Stopped).  For every controller state, handling Session-Stopped is
exactly one run of `avcSessionOpen` inside the handler: the handler's result is the result of
`avcSessionOpen`, with one settling delay and one attach-state query added to the trace; if
the queried attach state is Home or Roaming one start command is in the trace when the handler
returns; and in every case `AvcRetryTimerRef` then holds the newly created timer. -/
theorem stopped_reopens_immediately (o : Oracle) (totalNumBytes downloadProgress : Int)
    (w : World) :
    avcSessionCtrl_StatusHandler o .LE_AVC_SESSION_STOPPED totalNumBytes downloadProgress w =
      (avcSessionOpen o w).1 ∧
    (avcSessionCtrl_StatusHandler o .LE_AVC_SESSION_STOPPED totalNumBytes downloadProgress
      w).trace.count .le_mrc_GetNetRegState = w.trace.count .le_mrc_GetNetRegState + 1 ∧
    (avcSessionCtrl_StatusHandler o .LE_AVC_SESSION_STOPPED totalNumBytes downloadProgress
      w).trace.count (.sleep 2) = w.trace.count (.sleep 2) + 1 ∧
    ((o.netRegState = .LE_MRC_REG_HOME ∨ o.netRegState = .LE_MRC_REG_ROAMING) →
      (avcSessionCtrl_StatusHandler o .LE_AVC_SESSION_STOPPED totalNumBytes downloadProgress
        w).trace.count .le_avc_StartSession = w.trace.count .le_avc_StartSession + 1) ∧
    (avcSessionCtrl_StatusHandler o .LE_AVC_SESSION_STOPPED totalNumBytes downloadProgress
      w).AvcRetryTimerRef = some o.timerRef := by
  rw [StatusHandler_stopped]
  refine ⟨rfl, ?_, ?_, ?_, avcSessionOpen_ref o w⟩
  · rw [avcSessionOpen_trace]
    cases w.AvcRetryTimerRef <;> cases o.netRegState <;>
      simp [disarmCalls, startCalls, armCalls, List.count_cons, List.count_append]
  · rw [avcSessionOpen_trace]
    cases w.AvcRetryTimerRef <;> cases o.netRegState <;>
      simp [disarmCalls, startCalls, armCalls, List.count_cons, List.count_append]
  · rw [avcSessionOpen_trace]
    cases w.AvcRetryTimerRef <;> cases o.netRegState <;>
      simp [disarmCalls, startCalls, armCalls, List.count_cons, List.count_append]

/-- C7, concrete instance (Scenario C): a timer is armed, Session-Stopped arrives and the
registration query answers Home: the start command is issued inside the handler. -/
theorem stopped_reopens_immediately_witness :
    (avcSessionCtrl_StatusHandler oracleHome .LE_AVC_SESSION_STOPPED 0 0
      worldArmed).trace.count .le_avc_StartSession =
      worldArmed.trace.count .le_avc_StartSession + 1 :=
  (stopped_reopens_immediately oracleHome 0 0 worldArmed).2.2.2.1 (Or.inl rfl)

/-- C8 (clean shutdown).  For every controller state in which both subscriptions are held
(`AvcSessionHandle = h1`, `mrcNetRegStateHandle = h2`) and for all framework answers, the
termination-signal handler adds to the trace, in this order: the session-stop command; then
`le_timer_Stop ref`, `le_timer_Delete ref` if a timer `ref` was armed and nothing if none was;
then one `le_avc_RemoveStatusEventHandler h1` and one `le_mrc_RemoveNetRegStateEventHandler h2`.
Afterwards the three globals are `NULL`, and the resulting state and trace are the same
whatever the stop command (or any other framework call) answers. -/
theorem sigterm_clean_shutdown (o o' : Oracle) (pSigNum : Int) (w : World)
    (h1 : le_avc_StatusEventHandlerRef_t) (h2 : le_mrc_NetRegStateEventHandlerRef_t)
    (hs : w.AvcSessionHandle = some h1) (hn : w.mrcNetRegStateHandle = some h2) :
    (∀ ref, w.AvcRetryTimerRef = some ref →
      (sigHandlerSigTerm o pSigNum w).trace = w.trace ++
        [.le_avc_StopSession, .le_timer_Stop ref, .le_timer_Delete ref,
         .le_avc_RemoveStatusEventHandler h1, .le_mrc_RemoveNetRegStateEventHandler h2]) ∧
    (w.AvcRetryTimerRef = none →
      (sigHandlerSigTerm o pSigNum w).trace = w.trace ++
        [.le_avc_StopSession,
         .le_avc_RemoveStatusEventHandler h1, .le_mrc_RemoveNetRegStateEventHandler h2]) ∧
    (sigHandlerSigTerm o pSigNum w).AvcRetryTimerRef = none ∧
    (sigHandlerSigTerm o pSigNum w).AvcSessionHandle = none ∧
    (sigHandlerSigTerm o pSigNum w).mrcNetRegStateHandle = none ∧
    sigHandlerSigTerm o pSigNum w = sigHandlerSigTerm o' pSigNum w := by
  have hc := cleanUp_refs (call .le_avc_StopSession w)
  refine ⟨?_, ?_, hc.1, hc.2.1, hc.2.2, rfl⟩
  · intro ref hr
    simp [sigHandlerSigTerm, cleanUp_trace, call, hr, hs, hn, disarmCalls, removeStatusCalls,
      removeNetRegCalls]
  · intro hr
    simp [sigHandlerSigTerm, cleanUp_trace, call, hr, hs, hn, disarmCalls, removeStatusCalls,
      removeNetRegCalls]

/-- C8, concrete instance: a timer is armed, both subscriptions are held and the stop command
reports a fault. -/
theorem sigterm_clean_shutdown_witness :
    (sigHandlerSigTerm oracleSearching SIGTERM worldArmed).trace = worldArmed.trace ++
      [.le_avc_StopSession, .le_timer_Stop 7, .le_timer_Delete 7,
       .le_avc_RemoveStatusEventHandler 10, .le_mrc_RemoveNetRegStateEventHandler 20] :=
  (sigterm_clean_shutdown oracleSearching oracleHome SIGTERM worldArmed 10 20 rfl rfl).1 7 rfl

/-- C9 (network loss and attach).  For every controller state: when the notified attach state
is None, Searching, Denied or Unknown, the attach-state handler's only call is one session-stop
command and the three globals are unchanged (so no start command and no `avcSessionOpen`);
when it is Home or Roaming, the handler is exactly one run of `avcSessionOpen` (one attach-state
query added) and adds no session-stop command. -/
theorem netRegStateHandle_loss_and_attach (o : Oracle) (state : le_mrc_NetRegState_t)
    (w : World) :
    ((state = .LE_MRC_REG_NONE ∨ state = .LE_MRC_REG_SEARCHING ∨ state = .LE_MRC_REG_DENIED ∨
        state = .LE_MRC_REG_UNKNOWN) →
      (netRegStateHandle o state w).trace = w.trace ++ [.le_avc_StopSession] ∧
      (netRegStateHandle o state w).AvcRetryTimerRef = w.AvcRetryTimerRef ∧
      (netRegStateHandle o state w).AvcSessionHandle = w.AvcSessionHandle ∧
      (netRegStateHandle o state w).mrcNetRegStateHandle = w.mrcNetRegStateHandle) ∧
    ((state = .LE_MRC_REG_HOME ∨ state = .LE_MRC_REG_ROAMING) →
      netRegStateHandle o state w = (avcSessionOpen o w).1 ∧
      (netRegStateHandle o state w).trace.count .le_mrc_GetNetRegState =
        w.trace.count .le_mrc_GetNetRegState + 1 ∧
      (netRegStateHandle o state w).trace.count .le_avc_StopSession =
        w.trace.count .le_avc_StopSession) := by
  refine ⟨?_, ?_⟩
  · rintro (h | h | h | h) <;> subst h <;> simp [netRegStateHandle, call]
  · have key : (avcSessionOpen o w).1.trace.count .le_mrc_GetNetRegState =
          w.trace.count .le_mrc_GetNetRegState + 1 ∧
        (avcSessionOpen o w).1.trace.count .le_avc_StopSession =
          w.trace.count .le_avc_StopSession := by
      rw [avcSessionOpen_trace]
      cases w.AvcRetryTimerRef <;> cases o.netRegState <;>
        simp [disarmCalls, startCalls, armCalls, List.count_cons, List.count_append]
    rintro (h | h) <;> subst h <;> simpa [netRegStateHandle] using key

/-- C9, concrete instance: with a timer armed, a Searching notification only issues the stop
command; a Roaming notification runs `avcSessionOpen`. -/
theorem netRegStateHandle_loss_and_attach_witness :
    (netRegStateHandle oracleHome .LE_MRC_REG_SEARCHING worldArmed).trace =
      worldArmed.trace ++ [.le_avc_StopSession] ∧
    netRegStateHandle oracleHome .LE_MRC_REG_ROAMING worldArmed =
      (avcSessionOpen oracleHome worldArmed).1 :=
  ⟨((netRegStateHandle_loss_and_attach oracleHome .LE_MRC_REG_SEARCHING worldArmed).1
      (Or.inr (Or.inl rfl))).1,
   ((netRegStateHandle_loss_and_attach oracleHome .LE_MRC_REG_ROAMING worldArmed).2
      (Or.inr rfl)).1⟩

/-- C10 (informational and unrecognised statuses change nothing).  For every controller state
and every status value other than Session-Started and Session-Stopped (unrecognised values
included), the status handler leaves `AvcRetryTimerRef`, `AvcSessionHandle` and
`mrcNetRegStateHandle` unchanged and adds no start and no stop command; if the value is also
none of the three Pending values, the handler changes nothing at all: it makes no framework
call. -/
theorem informational_status_changes_nothing (o : Oracle) (updateStatus : le_avc_Status_t)
    (totalNumBytes downloadProgress : Int) (w : World)
    (h1 : updateStatus ≠ .LE_AVC_SESSION_STARTED) (h2 : updateStatus ≠ .LE_AVC_SESSION_STOPPED) :
    (avcSessionCtrl_StatusHandler o updateStatus totalNumBytes downloadProgress
      w).AvcRetryTimerRef = w.AvcRetryTimerRef ∧
    (avcSessionCtrl_StatusHandler o updateStatus totalNumBytes downloadProgress
      w).AvcSessionHandle = w.AvcSessionHandle ∧
    (avcSessionCtrl_StatusHandler o updateStatus totalNumBytes downloadProgress
      w).mrcNetRegStateHandle = w.mrcNetRegStateHandle ∧
    (avcSessionCtrl_StatusHandler o updateStatus totalNumBytes downloadProgress
      w).trace.count .le_avc_StartSession = w.trace.count .le_avc_StartSession ∧
    (avcSessionCtrl_StatusHandler o updateStatus totalNumBytes downloadProgress
      w).trace.count .le_avc_StopSession = w.trace.count .le_avc_StopSession ∧
    (updateStatus ≠ .LE_AVC_DOWNLOAD_PENDING → updateStatus ≠ .LE_AVC_INSTALL_PENDING →
      updateStatus ≠ .LE_AVC_UNINSTALL_PENDING →
      avcSessionCtrl_StatusHandler o updateStatus totalNumBytes downloadProgress w = w) := by
  obtain ⟨a, b, c, es, ht, hes⟩ :=
    StatusHandler_other o updateStatus totalNumBytes downloadProgress w h1 h2
  have hz : ∀ e : Effect, e ≠ .le_avc_GetUpdateType → isAccept e = false → es.count e = 0 := by
    intro e he1 he2
    apply List.count_eq_zero_of_not_mem
    intro hm
    rcases hes _ hm with h' | h'
    · exact he1 h'
    · rw [he2] at h'
      exact absurd h' (by decide)
  refine ⟨a, b, c, ?_, ?_, ?_⟩
  · rw [ht, List.count_append, hz .le_avc_StartSession (by decide) rfl, Nat.add_zero]
  · rw [ht, List.count_append, hz .le_avc_StopSession (by decide) rfl, Nat.add_zero]
  · intro h3 h4 h5
    exact StatusHandler_not_pending o updateStatus totalNumBytes downloadProgress w h1 h2 h3 h4 h5

/-- C10, concrete instance: a status value the controller does not recognise, and
Install-Pending, both delivered while a timer is armed. -/
theorem informational_status_changes_nothing_witness :
    avcSessionCtrl_StatusHandler oracleHome (.unrecognised 1000) 0 0 worldArmed = worldArmed ∧
    (avcSessionCtrl_StatusHandler oracleHome .LE_AVC_INSTALL_PENDING 0 0
      worldArmed).AvcRetryTimerRef = worldArmed.AvcRetryTimerRef :=
  ⟨(informational_status_changes_nothing oracleHome (.unrecognised 1000) 0 0 worldArmed
      (by decide) (by decide)).2.2.2.2.2 (by decide) (by decide) (by decide),
   (informational_status_changes_nothing oracleHome .LE_AVC_INSTALL_PENDING 0 0 worldArmed
      (by decide) (by decide)).1⟩

/-! ## Retry loop -/

theorem avcSessionOpen_counts_unattached (o : Oracle) (w : World)
    (h : o.netRegState ≠ .LE_MRC_REG_HOME ∧ o.netRegState ≠ .LE_MRC_REG_ROAMING) :
    (avcSessionOpen o w).1.trace.count .le_avc_StartSession =
      w.trace.count .le_avc_StartSession ∧
    (avcSessionOpen o w).1.trace.count .le_mrc_GetNetRegState =
      w.trace.count .le_mrc_GetNetRegState + 1 := by
  obtain ⟨h1, h2⟩ := h
  rw [avcSessionOpen_trace]
  cases hr : w.AvcRetryTimerRef <;> cases hn : o.netRegState <;>
    simp_all [disarmCalls, startCalls, armCalls, List.count_cons, List.count_append]

theorem step_timerFire_armed (o : Oracle) (ref : le_timer_Ref_t) (w : World)
    (hl : liveTimers w.trace = [ref]) :
    step w (.timerFire ref, o) = (avcSessionOpen o w).1 := by
  simp [step, hl, AvcRetryTimerHandler]

theorem run_fireEvents (os : List Oracle) (ref : le_timer_Ref_t) (w : World)
    (hi : TimerInv w) (hr : w.AvcRetryTimerRef = some ref)
    (h : ∀ o ∈ os, o.netRegState ≠ .LE_MRC_REG_HOME ∧ o.netRegState ≠ .LE_MRC_REG_ROAMING) :
    (run w (fireEvents ref os)).trace.count .le_avc_StartSession =
      w.trace.count .le_avc_StartSession ∧
    (run w (fireEvents ref os)).trace.count .le_mrc_GetNetRegState =
      w.trace.count .le_mrc_GetNetRegState + os.length ∧
    (run w (fireEvents ref os)).AvcRetryTimerRef = some (lastTimerRef ref os) ∧
    liveTimers (run w (fireEvents ref os)).trace = [lastTimerRef ref os] := by
  induction os generalizing ref w with
  | nil =>
    have hl := hi.1
    rw [hr] at hl
    exact ⟨rfl, rfl, hr, hl⟩
  | cons o os ih =>
    have hl := hi.1
    rw [hr] at hl
    have hs : step w (.timerFire ref, o) = (avcSessionOpen o w).1 :=
      step_timerFire_armed o ref w hl
    have hrun : run w (fireEvents ref (o :: os)) =
        run (avcSessionOpen o w).1 (fireEvents o.timerRef os) := by
      simp [fireEvents, run, hs]
    obtain ⟨c1, c2⟩ := avcSessionOpen_counts_unattached o w (h o (List.mem_cons_self _ _))
    obtain ⟨a, b, c, d⟩ := ih o.timerRef (avcSessionOpen o w).1 (TimerInv_avcSessionOpen o hi)
      (avcSessionOpen_ref o w) (fun o' hm => h o' (List.mem_cons_of_mem _ hm))
    rw [hrun]
    refine ⟨a.trans c1, ?_, c, d⟩
    rw [b, c2, List.length_cons]
    omega

/-- C11 (retry loop while unattached).  Start up from the initial state and let the retry timer
expire `os.length` times, each expiry being that of the timer armed by the attempt before it.
If the registration query answers neither Home nor Roaming at every attempt, then after startup
and after each expiry (every `k`): the trace holds no start command; it holds exactly `k + 1`
attach-state queries, one per `avcSessionOpen`; exactly one timer exists and `AvcRetryTimerRef`
refers to it; and the expiry of that timer performs exactly one further `avcSessionOpen`. -/
theorem retry_loop_while_unattached (o0 : Oracle) (os : List Oracle) (k : Nat)
    (hk : k ≤ os.length)
    (h : ∀ o ∈ o0 :: os,
      o.netRegState ≠ .LE_MRC_REG_HOME ∧ o.netRegState ≠ .LE_MRC_REG_ROAMING) :
    (run World.init ((.startup, o0) :: fireEvents o0.timerRef (os.take k))).trace.count
      .le_avc_StartSession = 0 ∧
    (run World.init ((.startup, o0) :: fireEvents o0.timerRef (os.take k))).trace.count
      .le_mrc_GetNetRegState = k + 1 ∧
    (run World.init ((.startup, o0) :: fireEvents o0.timerRef (os.take k))).AvcRetryTimerRef =
      some (lastTimerRef o0.timerRef (os.take k)) ∧
    liveTimers (run World.init ((.startup, o0) :: fireEvents o0.timerRef (os.take k))).trace =
      [lastTimerRef o0.timerRef (os.take k)] ∧
    (∀ o, step (run World.init ((.startup, o0) :: fireEvents o0.timerRef (os.take k)))
        (.timerFire (lastTimerRef o0.timerRef (os.take k)), o) =
      (avcSessionOpen o
        (run World.init ((.startup, o0) :: fireEvents o0.timerRef (os.take k)))).1) := by
  have hrun : run World.init ((.startup, o0) :: fireEvents o0.timerRef (os.take k)) =
      run (COMPONENT_INIT o0 World.init) (fireEvents o0.timerRef (os.take k)) := by
    simp [run, step]
  have h0 : (COMPONENT_INIT o0 World.init).trace.count .le_avc_StartSession = 0 ∧
      (COMPONENT_INIT o0 World.init).trace.count .le_mrc_GetNetRegState = 1 := by
    obtain ⟨h1, h2⟩ := h o0 (List.mem_cons_self _ _)
    unfold COMPONENT_INIT
    rw [avcSessionOpen_trace]
    cases hn : o0.netRegState <;>
      simp_all [call, World.init, disarmCalls, startCalls, armCalls, SIGTERM]
  have hr0 : (COMPONENT_INIT o0 World.init).AvcRetryTimerRef = some o0.timerRef := by
    unfold COMPONENT_INIT
    exact avcSessionOpen_ref o0 _
  obtain ⟨a, b, c, d⟩ := run_fireEvents (os.take k) o0.timerRef (COMPONENT_INIT o0 World.init)
    (TimerInv_COMPONENT_INIT o0 TimerInv_init) hr0
    (fun o hm => h o (List.mem_cons_of_mem _ (List.mem_of_mem_take hm)))
  rw [hrun]
  refine ⟨a.trans h0.1, ?_, c, d, fun o => step_timerFire_armed o _ _ d⟩
  rw [b, h0.2, List.length_take, Nat.min_eq_left hk]
  omega

/-- C11, concrete instance (Scenario B): startup while Searching, one expiry of the retry timer,
still Searching. -/
theorem retry_loop_while_unattached_witness :
    (run World.init ((.startup, oracleSearching) ::
      fireEvents oracleSearching.timerRef ([oracleSearching].take 1))).trace.count
      .le_avc_StartSession = 0 ∧
    (run World.init ((.startup, oracleSearching) ::
      fireEvents oracleSearching.timerRef ([oracleSearching].take 1))).trace.count
      .le_mrc_GetNetRegState = 1 + 1 ∧
    liveTimers (run World.init ((.startup, oracleSearching) ::
      fireEvents oracleSearching.timerRef ([oracleSearching].take 1))).trace =
      [lastTimerRef oracleSearching.timerRef ([oracleSearching].take 1)] :=
  have h := retry_loop_while_unattached oracleSearching [oracleSearching] 1 (by decide)
    (by decide)
  ⟨h.1, h.2.1, h.2.2.2.1⟩

/-! ## Closing the session -/

theorem avcSessionClose_ref (o : Oracle) (w : World) :
    (avcSessionClose o w).1.AvcRetryTimerRef = none := by
  unfold avcSessionClose
  cases h : w.AvcRetryTimerRef <;> simp [call, h]

/-- C12, as stated, fails on the network-loss branch of the attach-state handler.  Start up
while Searching (a retry timer, reference 2, is armed) and deliver a Searching notification:
the handler issues the session-stop command and returns with `AvcRetryTimerRef` still
referring to timer 2, which still exists. -/
theorem network_loss_keeps_timer_counterexample :
    (netRegStateHandle oracleSearching .LE_MRC_REG_SEARCHING
      (COMPONENT_INIT oracleSearching World.init)).trace =
      (COMPONENT_INIT oracleSearching World.init).trace ++ [.le_avc_StopSession] ∧
    (netRegStateHandle oracleSearching .LE_MRC_REG_SEARCHING
      (COMPONENT_INIT oracleSearching World.init)).AvcRetryTimerRef = some 2 ∧
    (netRegStateHandle oracleSearching .LE_MRC_REG_SEARCHING
      (COMPONENT_INIT oracleSearching World.init)).AvcRetryTimerRef ≠ none ∧
    liveTimers (netRegStateHandle oracleSearching .LE_MRC_REG_SEARCHING
      (COMPONENT_INIT oracleSearching World.init)).trace = [2] := by
  decide

/-- C12, amended.  For every controller state and all framework answers: `avcSessionClose` and
the termination-signal handler each issue the session-stop command and return with
`AvcRetryTimerRef` equal to `NULL`; the network-loss branch of the attach-state handler (None,
Searching, Denied, Unknown) issues the session-stop command and leaves `AvcRetryTimerRef` as
it was, so a timer that was armed stays armed. -/
theorem deliberate_close_timer (o : Oracle) (pSigNum : Int) (state : le_mrc_NetRegState_t)
    (w : World) :
    ((avcSessionClose o w).1.AvcRetryTimerRef = none ∧
      (avcSessionClose o w).1.trace.count .le_avc_StopSession =
        w.trace.count .le_avc_StopSession + 1) ∧
    ((sigHandlerSigTerm o pSigNum w).AvcRetryTimerRef = none ∧
      (sigHandlerSigTerm o pSigNum w).trace.count .le_avc_StopSession =
        w.trace.count .le_avc_StopSession + 1) ∧
    ((state = .LE_MRC_REG_NONE ∨ state = .LE_MRC_REG_SEARCHING ∨ state = .LE_MRC_REG_DENIED ∨
        state = .LE_MRC_REG_UNKNOWN) →
      (netRegStateHandle o state w).AvcRetryTimerRef = w.AvcRetryTimerRef ∧
      (netRegStateHandle o state w).trace.count .le_avc_StopSession =
        w.trace.count .le_avc_StopSession + 1) := by
  refine ⟨⟨avcSessionClose_ref o w, ?_⟩, ⟨(cleanUp_refs _).1, ?_⟩, ?_⟩
  · unfold avcSessionClose
    cases h : w.AvcRetryTimerRef <;>
      simp [call, h, List.count_cons, List.count_append]
  · unfold sigHandlerSigTerm
    rw [cleanUp_trace]
    cases h1 : w.AvcRetryTimerRef <;> cases h2 : w.AvcSessionHandle <;>
      cases h3 : w.mrcNetRegStateHandle <;>
      simp [call, h1, h2, h3, disarmCalls, removeStatusCalls, removeNetRegCalls,
        List.count_cons, List.count_append]
  · rintro (h | h | h | h) <;> subst h <;>
      simp [netRegStateHandle, call, List.count_append]

/-- C12 amended, concrete instance: with timer 7 armed, `avcSessionClose` and the termination
signal leave no timer reference, a Denied notification leaves the reference to timer 7. -/
theorem deliberate_close_timer_witness :
    (avcSessionClose oracleHome worldArmed).1.AvcRetryTimerRef = none ∧
    (sigHandlerSigTerm oracleHome SIGTERM worldArmed).AvcRetryTimerRef = none ∧
    (netRegStateHandle oracleHome .LE_MRC_REG_DENIED worldArmed).AvcRetryTimerRef = some 7 :=
  ⟨(deliberate_close_timer oracleHome SIGTERM .LE_MRC_REG_DENIED worldArmed).1.1,
   (deliberate_close_timer oracleHome SIGTERM .LE_MRC_REG_DENIED worldArmed).2.1.1,
   ((deliberate_close_timer oracleHome SIGTERM .LE_MRC_REG_DENIED worldArmed).2.2
      (Or.inr (Or.inr (Or.inl rfl)))).1⟩

/-- C13 (disarm is a safe no-op and idempotent).  `StopAvcTimer` called while
`AvcRetryTimerRef` is `NULL` returns the state unchanged, trace included; called while it
refers to timer `ref` it adds exactly `le_timer_Stop ref`, `le_timer_Delete ref`, sets the
reference to `NULL` and changes nothing else; hence for every state a second `StopAvcTimer`
directly after the first changes neither the state nor the trace. -/
theorem StopAvcTimer_noop_and_idempotent (w : World) :
    (w.AvcRetryTimerRef = none → StopAvcTimer w = w) ∧
    (∀ ref, w.AvcRetryTimerRef = some ref →
      StopAvcTimer w =
        { AvcRetryTimerRef := none, AvcSessionHandle := w.AvcSessionHandle,
          mrcNetRegStateHandle := w.mrcNetRegStateHandle,
          trace := w.trace ++ [.le_timer_Stop ref, .le_timer_Delete ref] }) ∧
    StopAvcTimer (StopAvcTimer w) = StopAvcTimer w := by
  refine ⟨?_, ?_, ?_⟩
  · intro h
    simp [StopAvcTimer, h]
  · intro ref h
    simp [StopAvcTimer, h, call]
  · have h := StopAvcTimer_ref w
    generalize StopAvcTimer w = w' at h
    simp [StopAvcTimer, h]

/-- C13, concrete instance: disarming the armed sample state, and disarming the initial
state. -/
theorem StopAvcTimer_noop_and_idempotent_witness :
    StopAvcTimer World.init = World.init ∧
    StopAvcTimer worldArmed =
      { AvcRetryTimerRef := none, AvcSessionHandle := worldArmed.AvcSessionHandle,
        mrcNetRegStateHandle := worldArmed.mrcNetRegStateHandle,
        trace := worldArmed.trace ++ [.le_timer_Stop 7, .le_timer_Delete 7] } :=
  ⟨(StopAvcTimer_noop_and_idempotent World.init).1 rfl,
   (StopAvcTimer_noop_and_idempotent worldArmed).2.1 7 rfl⟩

/-- C14 (order of effects inside one open attempt).  For every controller state, queried
attach state and start result, the calls `avcSessionOpen` adds to the trace are exactly, in
this order: `le_timer_Stop`, `le_timer_Delete` of the armed timer if one was armed (nothing
otherwise); `sleep(2)`; the attach-state query; `le_avc_StartSession` if the queried state is
Home or Roaming (nothing otherwise); then `le_timer_Create`, `SetHandler`, `SetRepeat`,
`SetInterval`, `le_timer_Start` of the new timer. -/
theorem avcSessionOpen_effect_order (o : Oracle) (w : World) :
    (avcSessionOpen o w).1.trace =
      w.trace ++
      (match w.AvcRetryTimerRef with
        | some ref => [.le_timer_Stop ref, .le_timer_Delete ref]
        | none => []) ++
      [.sleep 2] ++
      [.le_mrc_GetNetRegState] ++
      (if o.netRegState = .LE_MRC_REG_HOME ∨ o.netRegState = .LE_MRC_REG_ROAMING
        then [.le_avc_StartSession] else []) ++
      [.le_timer_Create "AvcRetryTimer" o.timerRef,
       .le_timer_SetHandler o.timerRef .AvcRetryTimerHandler,
       .le_timer_SetRepeat o.timerRef 1,
       .le_timer_SetInterval o.timerRef { sec := 60, usec := 0 },
       .le_timer_Start o.timerRef] := by
  rw [avcSessionOpen_trace]
  cases w.AvcRetryTimerRef <;> cases o.netRegState <;>
    simp [disarmCalls, startCalls, armCalls]

/-- C15 (idempotence under repeated attach notifications).  For every controller state and
every attach state, handling the notification a second time directly after the first (with
any framework answers, in particular the same ones) leaves the timer armed exactly when it was
armed after the first, and both subscription references as they were.  A repeated network-loss
notification leaves the three globals as they were before the first one, each handling adding
only one session-stop command.  A repeated Home/Roaming notification, in any state reachable
from the initial one, leaves exactly one timer in existence, the one `AvcRetryTimerRef`
refers to. -/
theorem attach_notification_idempotent (o1 o2 : Oracle) (state : le_mrc_NetRegState_t)
    (w : World) :
    ((netRegStateHandle o2 state (netRegStateHandle o1 state w)).AvcRetryTimerRef.isSome =
        (netRegStateHandle o1 state w).AvcRetryTimerRef.isSome ∧
      (netRegStateHandle o2 state (netRegStateHandle o1 state w)).AvcSessionHandle =
        (netRegStateHandle o1 state w).AvcSessionHandle ∧
      (netRegStateHandle o2 state (netRegStateHandle o1 state w)).mrcNetRegStateHandle =
        (netRegStateHandle o1 state w).mrcNetRegStateHandle) ∧
    ((state = .LE_MRC_REG_NONE ∨ state = .LE_MRC_REG_SEARCHING ∨ state = .LE_MRC_REG_DENIED ∨
        state = .LE_MRC_REG_UNKNOWN) →
      (netRegStateHandle o2 state (netRegStateHandle o1 state w)).AvcRetryTimerRef =
        w.AvcRetryTimerRef ∧
      (netRegStateHandle o2 state (netRegStateHandle o1 state w)).AvcSessionHandle =
        w.AvcSessionHandle ∧
      (netRegStateHandle o2 state (netRegStateHandle o1 state w)).mrcNetRegStateHandle =
        w.mrcNetRegStateHandle ∧
      (netRegStateHandle o2 state (netRegStateHandle o1 state w)).trace =
        w.trace ++ [.le_avc_StopSession] ++ [.le_avc_StopSession]) ∧
    ((state = .LE_MRC_REG_HOME ∨ state = .LE_MRC_REG_ROAMING) →
      (netRegStateHandle o2 state (netRegStateHandle o1 state w)).AvcRetryTimerRef =
        some o2.timerRef ∧
      ∀ pre, w = run World.init pre →
        liveTimers (netRegStateHandle o2 state (netRegStateHandle o1 state w)).trace =
          [o2.timerRef]) := by
  refine ⟨?_, ?_, ?_⟩
  · cases state <;>
      simp [netRegStateHandle, call, avcSessionOpen_ref, avcSessionOpen_handles]
  · rintro (h | h | h | h) <;> subst h <;> simp [netRegStateHandle, call]
  · intro h
    have key : netRegStateHandle o2 state (netRegStateHandle o1 state w) =
        (avcSessionOpen o2 (avcSessionOpen o1 w).1).1 := by
      rcases h with h | h <;> subst h <;> simp [netRegStateHandle]
    rw [key]
    refine ⟨avcSessionOpen_ref _ _, ?_⟩
    intro pre hw
    have hi : TimerInv (avcSessionOpen o2 (avcSessionOpen o1 w).1).1 := by
      rw [hw]
      exact TimerInv_avcSessionOpen o2 (TimerInv_avcSessionOpen o1 (TimerInv_run pre TimerInv_init))
    rw [hi.1, avcSessionOpen_ref]
    rfl

/-- C15, concrete instance: after startup on the home network, two Roaming notifications in a
row leave exactly one timer; two Searching notifications leave the timer reference as it was. -/
theorem attach_notification_idempotent_witness :
    liveTimers (netRegStateHandle oracleSearching .LE_MRC_REG_ROAMING
      (netRegStateHandle oracleHome .LE_MRC_REG_ROAMING
        (run World.init [(.startup, oracleHome)]))).trace = [oracleSearching.timerRef] ∧
    (netRegStateHandle oracleSearching .LE_MRC_REG_SEARCHING
      (netRegStateHandle oracleHome .LE_MRC_REG_SEARCHING
        (run World.init [(.startup, oracleHome)]))).AvcRetryTimerRef =
      (run World.init [(.startup, oracleHome)]).AvcRetryTimerRef :=
  ⟨((attach_notification_idempotent oracleHome oracleSearching .LE_MRC_REG_ROAMING
      (run World.init [(.startup, oracleHome)])).2.2 (Or.inr rfl)).2
      [(.startup, oracleHome)] rfl,
   ((attach_notification_idempotent oracleHome oracleSearching .LE_MRC_REG_SEARCHING
      (run World.init [(.startup, oracleHome)])).2.1 (Or.inr (Or.inl rfl))).1⟩

/-! ## Startup -/

theorem mem_before_of_prefix {pre rest before after : List Effect} {e x : Effect}
    (h : pre ++ rest = before ++ e :: after) (hne : e ∉ pre) (hx : x ∈ pre) : x ∈ before := by
  rcases List.append_eq_append_iff.mp h with ⟨a, ha, _⟩ | ⟨c, hc, hc'⟩
  · rw [ha]
    exact List.mem_append_left _ hx
  · cases c with
    | nil =>
      rw [hc, List.append_nil] at hx
      exact hx
    | cons e' c =>
      rw [List.cons_append] at hc'
      have he : e = e' := (List.cons.inj hc').1
      exact absurd (by rw [hc, he]; simp) hne

/-- C16 (startup order).  For every state and all framework answers, the calls of
`COMPONENT_INIT` are, in this order: the two signal set-up calls, the registration of the
session-status handler, the registration of the attach-state handler, and then the calls of
exactly one `avcSessionOpen` (run on the state in which both references are stored).  On
return both subscription references and the retry timer reference are held.  In the startup
trace from the initial state every session-start command comes after the registration of the
session-status handler. -/
theorem startup_order (o : Oracle) (w : World) :
    (COMPONENT_INIT o w).trace =
      w.trace ++
      [.le_sig_Block SIGTERM,
       .le_sig_SetEventHandler SIGTERM .sigHandlerSigTerm,
       .le_avc_AddStatusEventHandler .avcSessionCtrl_StatusHandler o.statusHandlerRef,
       .le_mrc_AddNetRegStateEventHandler .netRegStateHandle o.netRegHandlerRef] ++
      (match w.AvcRetryTimerRef with
        | some ref => [.le_timer_Stop ref, .le_timer_Delete ref]
        | none => []) ++
      [.sleep 2, .le_mrc_GetNetRegState] ++
      (if o.netRegState = .LE_MRC_REG_HOME ∨ o.netRegState = .LE_MRC_REG_ROAMING
        then [.le_avc_StartSession] else []) ++
      [.le_timer_Create "AvcRetryTimer" o.timerRef,
       .le_timer_SetHandler o.timerRef .AvcRetryTimerHandler,
       .le_timer_SetRepeat o.timerRef 1,
       .le_timer_SetInterval o.timerRef { sec := 60, usec := 0 },
       .le_timer_Start o.timerRef] ∧
    COMPONENT_INIT o w =
      (avcSessionOpen o
        { AvcRetryTimerRef := w.AvcRetryTimerRef,
          AvcSessionHandle := some o.statusHandlerRef,
          mrcNetRegStateHandle := some o.netRegHandlerRef,
          trace := w.trace ++
            [.le_sig_Block SIGTERM,
             .le_sig_SetEventHandler SIGTERM .sigHandlerSigTerm,
             .le_avc_AddStatusEventHandler .avcSessionCtrl_StatusHandler o.statusHandlerRef,
             .le_mrc_AddNetRegStateEventHandler .netRegStateHandle o.netRegHandlerRef] }).1 ∧
    (COMPONENT_INIT o w).trace.count .le_mrc_GetNetRegState =
      w.trace.count .le_mrc_GetNetRegState + 1 ∧
    (COMPONENT_INIT o w).AvcSessionHandle = some o.statusHandlerRef ∧
    (COMPONENT_INIT o w).mrcNetRegStateHandle = some o.netRegHandlerRef ∧
    (COMPONENT_INIT o w).AvcRetryTimerRef = some o.timerRef ∧
    (∀ before after,
      (COMPONENT_INIT o World.init).trace = before ++ .le_avc_StartSession :: after →
      .le_avc_AddStatusEventHandler .avcSessionCtrl_StatusHandler o.statusHandlerRef ∈
        before) := by
  have hinit : COMPONENT_INIT o w =
      (avcSessionOpen o
        { AvcRetryTimerRef := w.AvcRetryTimerRef,
          AvcSessionHandle := some o.statusHandlerRef,
          mrcNetRegStateHandle := some o.netRegHandlerRef,
          trace := w.trace ++
            [.le_sig_Block SIGTERM,
             .le_sig_SetEventHandler SIGTERM .sigHandlerSigTerm,
             .le_avc_AddStatusEventHandler .avcSessionCtrl_StatusHandler o.statusHandlerRef,
             .le_mrc_AddNetRegStateEventHandler .netRegStateHandle o.netRegHandlerRef] }).1 := by
    simp [COMPONENT_INIT, call]
  have htrace : ∀ w : World, (COMPONENT_INIT o w).trace =
      (w.trace ++
      [.le_sig_Block SIGTERM,
       .le_sig_SetEventHandler SIGTERM .sigHandlerSigTerm,
       .le_avc_AddStatusEventHandler .avcSessionCtrl_StatusHandler o.statusHandlerRef,
       .le_mrc_AddNetRegStateEventHandler .netRegStateHandle o.netRegHandlerRef]) ++
      (disarmCalls w.AvcRetryTimerRef ++ [.sleep 2, .le_mrc_GetNetRegState] ++
        startCalls o.netRegState ++ armCalls o.timerRef) := by
    intro w
    simp [COMPONENT_INIT, call, avcSessionOpen_trace]
  refine ⟨?_, hinit, ?_, ?_, ?_, ?_, ?_⟩
  · rw [htrace]
    cases w.AvcRetryTimerRef <;> cases o.netRegState <;>
      simp [disarmCalls, startCalls, armCalls]
  · rw [htrace]
    cases w.AvcRetryTimerRef <;> cases o.netRegState <;>
      simp [disarmCalls, startCalls, armCalls, List.count_cons, List.count_append]
  · rw [hinit, (avcSessionOpen_handles o _).1]
  · rw [hinit, (avcSessionOpen_handles o _).2]
  · rw [hinit, avcSessionOpen_ref]
  · intro before after h
    rw [htrace] at h
    exact mem_before_of_prefix h (by simp [World.init]) (by simp [World.init])

/-- C17 (the start decision uses the queried attach state, not the notified one).  When the
attach-state handler is called with Home or Roaming, one start command is added to the trace
if and only if the attach state returned by the query inside `avcSessionOpen` is Home or
Roaming; otherwise none is added; in both cases the retry timer is armed on return. -/
theorem start_decision_uses_queried_state (o : Oracle) (state : le_mrc_NetRegState_t)
    (w : World) (hs : state = .LE_MRC_REG_HOME ∨ state = .LE_MRC_REG_ROAMING) :
    ((netRegStateHandle o state w).trace.count .le_avc_StartSession =
        w.trace.count .le_avc_StartSession + 1 ↔
      (o.netRegState = .LE_MRC_REG_HOME ∨ o.netRegState = .LE_MRC_REG_ROAMING)) ∧
    ((netRegStateHandle o state w).trace.count .le_avc_StartSession =
        w.trace.count .le_avc_StartSession ↔
      ¬ (o.netRegState = .LE_MRC_REG_HOME ∨ o.netRegState = .LE_MRC_REG_ROAMING)) ∧
    (netRegStateHandle o state w).AvcRetryTimerRef = some o.timerRef := by
  have key : netRegStateHandle o state w = (avcSessionOpen o w).1 := by
    rcases hs with h | h <;> subst h <;> simp [netRegStateHandle]
  rw [key, avcSessionOpen_trace]
  refine ⟨?_, ?_, avcSessionOpen_ref o w⟩ <;>
    cases w.AvcRetryTimerRef <;> cases o.netRegState <;>
      simp [disarmCalls, startCalls, armCalls, List.count_cons, List.count_append]

/-- C17, concrete instance: the notification says Home, the query answers Searching: no start
command is added and the retry timer is armed. -/
theorem start_decision_uses_queried_state_witness :
    (netRegStateHandle oracleSearching .LE_MRC_REG_HOME worldArmed).trace.count
        .le_avc_StartSession = worldArmed.trace.count .le_avc_StartSession ∧
    (netRegStateHandle oracleSearching .LE_MRC_REG_HOME worldArmed).AvcRetryTimerRef =
      some oracleSearching.timerRef :=
  ⟨(start_decision_uses_queried_state oracleSearching .LE_MRC_REG_HOME worldArmed
      (Or.inl rfl)).2.1.mpr (by decide),
   (start_decision_uses_queried_state oracleSearching .LE_MRC_REG_HOME worldArmed
      (Or.inl rfl)).2.2⟩

/-- C18 (no double release).  For every controller state, a second run of the
termination-signal handler directly after a first one adds exactly one call to the trace, the
session-stop command (so no timer stop or delete and no unsubscribe), and leaves the three
globals as the first run left them, namely `NULL`. -/
theorem sigterm_twice_no_double_release (o1 o2 : Oracle) (pSigNum1 pSigNum2 : Int)
    (w : World) :
    (sigHandlerSigTerm o2 pSigNum2 (sigHandlerSigTerm o1 pSigNum1 w)).trace =
      (sigHandlerSigTerm o1 pSigNum1 w).trace ++ [.le_avc_StopSession] ∧
    (sigHandlerSigTerm o2 pSigNum2 (sigHandlerSigTerm o1 pSigNum1 w)).AvcRetryTimerRef =
      (sigHandlerSigTerm o1 pSigNum1 w).AvcRetryTimerRef ∧
    (sigHandlerSigTerm o2 pSigNum2 (sigHandlerSigTerm o1 pSigNum1 w)).AvcSessionHandle =
      (sigHandlerSigTerm o1 pSigNum1 w).AvcSessionHandle ∧
    (sigHandlerSigTerm o2 pSigNum2 (sigHandlerSigTerm o1 pSigNum1 w)).mrcNetRegStateHandle =
      (sigHandlerSigTerm o1 pSigNum1 w).mrcNetRegStateHandle ∧
    (sigHandlerSigTerm o1 pSigNum1 w).AvcRetryTimerRef = none ∧
    (sigHandlerSigTerm o1 pSigNum1 w).AvcSessionHandle = none ∧
    (sigHandlerSigTerm o1 pSigNum1 w).mrcNetRegStateHandle = none := by
  obtain ⟨a, b, c⟩ : (sigHandlerSigTerm o1 pSigNum1 w).AvcRetryTimerRef = none ∧
      (sigHandlerSigTerm o1 pSigNum1 w).AvcSessionHandle = none ∧
      (sigHandlerSigTerm o1 pSigNum1 w).mrcNetRegStateHandle = none :=
    cleanUp_refs (call .le_avc_StopSession w)
  generalize sigHandlerSigTerm o1 pSigNum1 w = w1 at a b c ⊢
  obtain ⟨a', b', c'⟩ : (sigHandlerSigTerm o2 pSigNum2 w1).AvcRetryTimerRef = none ∧
      (sigHandlerSigTerm o2 pSigNum2 w1).AvcSessionHandle = none ∧
      (sigHandlerSigTerm o2 pSigNum2 w1).mrcNetRegStateHandle = none :=
    cleanUp_refs (call .le_avc_StopSession w1)
  refine ⟨?_, a'.trans a.symm, b'.trans b.symm, c'.trans c.symm, a, b, c⟩
  simp [sigHandlerSigTerm, cleanUp_trace, call, a, b, c, disarmCalls, removeStatusCalls,
    removeNetRegCalls]

/-- C19 (update-kind lookup is total and fails to Unknown).  `GetUpdateType` queries the update
type exactly once and returns a string for every answer: `UNKNOWN` whenever the query does not
report `LE_OK`, whatever type value it left; otherwise `FIRMWARE`, `APPLICATION`, `FRAMEWORK`,
`UNKNOWN` for the firmware, application, framework and unknown kinds, and `UNKNOWN` for any
other value.  The result is always one of these four names. -/
theorem GetUpdateType_total (o : Oracle) (w : World) :
    (o.getUpdateType ≠ .LE_OK → (GetUpdateType o w).2 = "UNKNOWN") ∧
    (o.getUpdateType = .LE_OK →
      (o.updateType = .LE_AVC_FIRMWARE_UPDATE → (GetUpdateType o w).2 = "FIRMWARE") ∧
      (o.updateType = .LE_AVC_APPLICATION_UPDATE → (GetUpdateType o w).2 = "APPLICATION") ∧
      (o.updateType = .LE_AVC_FRAMEWORK_UPDATE → (GetUpdateType o w).2 = "FRAMEWORK") ∧
      (o.updateType = .LE_AVC_UNKNOWN_UPDATE → (GetUpdateType o w).2 = "UNKNOWN") ∧
      (∀ code, o.updateType = .unrecognised code → (GetUpdateType o w).2 = "UNKNOWN")) ∧
    (GetUpdateType o w).2 ∈ ["FIRMWARE", "APPLICATION", "FRAMEWORK", "UNKNOWN"] ∧
    (GetUpdateType o w).1.trace = w.trace ++ [.le_avc_GetUpdateType] := by
  unfold GetUpdateType
  by_cases hres : o.getUpdateType = .LE_OK
  · cases ht : o.updateType <;> simp [hres, call]
  · simp [hres, call]

/-- C19, concrete instance: a failed query that left an unrecognised type value, and a
successful query reporting a firmware update. -/
theorem GetUpdateType_total_witness :
    (GetUpdateType oracleSearching World.init).2 = "UNKNOWN" ∧
    (GetUpdateType oracleHome World.init).2 = "FIRMWARE" :=
  ⟨(GetUpdateType_total oracleSearching World.init).1 (by decide),
   ((GetUpdateType_total oracleHome World.init).2.1 rfl).1 rfl⟩

end AvcController
